import Mathlib

/-!
# cloud-nuke: the command layer (`commands/cli.go`)

A shallow embedding of `CreateCli`, `parseDurationParam`,
`promptForConfirmationBeforeNuking`, `regionIsValid`, `gcpNuke` and `awsNuke`.

The functions of other packages that the file calls (`aws.*`, `gcp.*`,
`shell.PromptUserForInput`, `time.ParseDuration`, `time.Now`, the Unicode case
table behind `strings.ToLower`) are parameters of the embedding, bundled in
environment records.  Every call of a collaborator and every line written to
the log or the terminal is recorded, in program order, in the trace of a run.
-/

namespace CloudNuke

/-! ## Errors -/

/-- An error value created outside package `commands` (by the provider
packages, the shell helper or the standard library); none of those packages
depends on `commands`, so such a value is never an `InvalidFlagError`.
`traced` tells whether the value already is a `*goerrors.Error`, i.e. already
carries a stack trace. -/
structure ExtError where
  text : String
  traced : Bool
deriving DecidableEq, Repr

/-- The error values `cli.go` can return.  A nil `error` is `none : Option GoError`. -/
inductive GoError where
  /-- The struct literal `InvalidFlagError{Name: .., Value: ..}`. -/
  | InvalidFlagError (Name Value : String)
  /-- The value of `goerrors.New(text)`. -/
  | New (text : String)
  /-- An error handed over by a collaborator. -/
  | External (e : ExtError)
  /-- A `*goerrors.Error` built by `errors.WithStackTrace` around `Err`. -/
  | Wrapped (Err : GoError)
deriving DecidableEq, Repr

/-- Whether the dynamic type of the error is `InvalidFlagError`. -/
def GoError.isInvalidFlagError : GoError → Bool
  | .InvalidFlagError _ _ => true
  | _ => false

/-- The function `errors.WithStackTrace` of gruntwork-cli on a non-nil error:
`goerrors.Wrap(err, 1)`, which returns a value that already is a
`*goerrors.Error` unchanged and wraps every other one. -/
def WithStackTrace : GoError → GoError
  | .Wrapped e => .Wrapped e
  | .External e => if e.traced then .External e else .Wrapped (.External e)
  | e => .Wrapped e

/-! ## Time -/

/-- A `time.Duration`: a signed 64-bit count of nanoseconds. -/
abbrev Duration := Int

/-- A `time.Time` instant, as nanoseconds since the Unix epoch.  The range of
`time.Time` (seconds in an int64) is far larger than any sum formed here, so
the instant is not wrapped. -/
abbrev Time := Int

def MinInt64 : Int := -(2 ^ 63)

def MaxInt64 : Int := 2 ^ 63 - 1

/-- Reduction of an integer to the int64 it is stored as (two's complement). -/
def wrapInt64 (x : Int) : Int := (x + 2 ^ 63) % 2 ^ 64 - 2 ^ 63

def Nanosecond : Duration := 1

def Second : Duration := 1000000000 * Nanosecond

def Minute : Duration := 60 * Second

/-! ## Provider data -/

/-- A GCP resource, by the four accessors `gcpNuke` prints. -/
structure GcpResource where
  Kind : String
  Name : String
  Region : String
  Zone : String
deriving DecidableEq, Repr

/-- One resource kind of one AWS region: `ResourceName()` and `ResourceIdentifiers()`. -/
structure AwsResources where
  ResourceName : String
  ResourceIdentifiers : List String
deriving DecidableEq, Repr

structure AwsRegionResource where
  Resources : List AwsResources
deriving DecidableEq, Repr

/-- The value `aws.GetAllResources` returns.  `Resources` is a Go map keyed by
region; it is kept as an association list, whose order stands for the order in
which the map happens to be ranged over. -/
structure AwsAccountResources where
  Resources : List (String × AwsRegionResource)
deriving DecidableEq, Repr

/-! ## Traces -/

/-- The observable steps of a run. -/
inductive Event where
  /-- A line of `logging.Logger.Infoln` / `Infof`. -/
  | Info (msg : String)
  /-- A call of `logging.Logger.Errorf` with the text of `err`. -/
  | Errorf (err : GoError)
  /-- Text written by `fmt.Printf`, `fmt.Println` or `color.Println`. -/
  | Print (text : String)
  /-- A call of `time.Sleep`. -/
  | Sleep (d : Duration)
  /-- A call of `shell.PromptUserForInput`. -/
  | PromptUserForInput (prompt : String)
  /-- Entry into `promptForConfirmationBeforeNuking`, recorded as its first step. -/
  | Confirmation (force : Bool)
  /-- A call of `gcp.DefaultContext`. -/
  | GcpDefaultContext
  /-- A call of `ctx.GetAllResources`. -/
  | GcpGetAllResources (excludedRegions : List String) (excludeAfter : Time)
  /-- A call of `ctx.NukeAllResources`. -/
  | GcpNukeAllResources (resources : List GcpResource)
  /-- A call of `aws.GetAllRegions`. -/
  | AwsGetAllRegions
  /-- A call of `aws.GetAllResources`. -/
  | AwsGetAllResources (regions excludedRegions : List String) (excludeAfter : Time)
  /-- A call of `aws.NukeAllResources`. -/
  | AwsNukeAllResources (account : AwsAccountResources) (regions : List String)
deriving DecidableEq, Repr

/-- The event is a call of a provider's `GetAllResources`. -/
def Event.isList : Event → Bool
  | .GcpGetAllResources _ _ => true
  | .AwsGetAllResources _ _ _ => true
  | _ => false

/-- The event is a call of a provider's `NukeAllResources`. -/
def Event.isNuke : Event → Bool
  | .GcpNukeAllResources _ => true
  | .AwsNukeAllResources _ _ => true
  | _ => false

/-- The event belongs to the confirmation gate: entry into
`promptForConfirmationBeforeNuking` or one of the effects only it has. -/
def Event.isGate : Event → Bool
  | .Confirmation _ => true
  | .PromptUserForInput _ => true
  | .Print _ => true
  | .Sleep _ => true
  | _ => false

/-- The outcome of a command action: what it did and the `error` it returned. -/
structure Run where
  trace : List Event
  err : Option GoError
deriving DecidableEq, Repr

/-! ## Collaborators -/

/-- The standard-library and shell collaborators shared by both commands. -/
structure Sys where
  /-- The function `time.ParseDuration`. -/
  ParseDuration : String → Except ExtError Duration
  /-- The reading `time.Now()` gives inside `parseDurationParam`. -/
  Now : Time
  /-- The function `shell.PromptUserForInput`, applied to the prompt text. -/
  PromptUserForInput : String → Except ExtError String
  /-- The function `unicode.ToLower` on runes above `unicode.MaxASCII`
  (a lookup in the standard library's case table). -/
  UnicodeToLower : Char → Char

/-- A `*gcp.GcpContext` with the methods `gcpNuke` calls on it. -/
structure GcpContext where
  Project : String
  ContainsRegion : String → Bool
  GetAllResources : List String → Time → Except ExtError (List GcpResource)
  NukeAllResources : List GcpResource → List ExtError

structure GcpEnv where
  sys : Sys
  /-- The function `gcp.DefaultContext`. -/
  DefaultContext : Except ExtError GcpContext

structure AwsEnv where
  sys : Sys
  GetAllRegions : List String
  GetAllResources : List String → List String → Time → Except ExtError AwsAccountResources
  NukeAllResources : AwsAccountResources → List String → Option ExtError

abbrev Str := String

/-- A `*cli.Context`: the flag values of the invocation, looked up by flag name. -/
structure Context where
  StringSlice : Str → List Str
  String : Str → Str
  Bool : Str → Bool

/-! ## The flag declarations of `CreateCli` -/

inductive FlagKind where
  | StringSliceFlag
  | StringFlag
  | BoolFlag
deriving DecidableEq, Repr

structure Flag where
  kind : FlagKind
  Name : String
  Usage : String
  Value : String
deriving DecidableEq, Repr

/-- The `Action` of a command, before `errors.WithPanicHandling`. -/
inductive Action where
  | awsNuke
  | gcpNuke
deriving DecidableEq, Repr

structure Command where
  Name : String
  Usage : String
  Action : Action
  Flags : List Flag
deriving DecidableEq, Repr

structure App where
  Name : String
  HelpName : String
  Author : String
  Version : String
  Usage : String
  Commands : List Command
deriving DecidableEq, Repr

def olderThanUsage : String :=
  "Only delete resources older than this specified value. Can be any valid Go duration, such as 10m or 8h."

def forceUsage : String :=
  "Skip nuke confirmation prompt. WARNING: this will automatically delete all resources without any confirmation"

def CreateCli (version : String) : App :=
  { Name := "cloud-nuke"
    HelpName := "cloud-nuke"
    Author := "Gruntwork <www.gruntwork.io>"
    Version := version
    Usage := "A CLI tool to cleanup cloud resources (AWS, Azure, GCP). THIS TOOL WILL COMPLETELY REMOVE ALL RESOURCES AND ITS EFFECTS ARE IRREVERSIBLE!!!"
    Commands :=
      [ { Name := "aws"
          Usage := "Clean up AWS resources (ASG, ELB, ELBv2, EBS, EC2, AMI, Snapshots, ELastic IP)"
          Action := .awsNuke
          Flags :=
            [ ⟨.StringSliceFlag, "exclude-region", "regions to exclude", ""⟩,
              ⟨.StringFlag, "older-than", olderThanUsage, "0s"⟩,
              ⟨.BoolFlag, "force", forceUsage, ""⟩ ] },
        { Name := "gcp"
          Usage := "Clean up GCP resources (GCE instances)"
          Action := .gcpNuke
          Flags :=
            [ ⟨.StringSliceFlag, "exclude-region", "regions to exclude", ""⟩,
              ⟨.StringFlag, "older-than", olderThanUsage, "0s"⟩,
              ⟨.BoolFlag, "force", forceUsage, ""⟩ ] } ] }

/-- The names of the flags declared for the command called `name`. -/
def declaredFlagNames (app : App) (name : String) : List String :=
  ((app.Commands.filter (fun cmd => cmd.Name == name)).map
    (fun cmd => cmd.Flags.map (fun f => f.Name))).flatten

/-! ## `parseDurationParam` -/

def parseDurationParam (sys : Sys) (paramValue : String) : Except GoError Time :=
  match sys.ParseDuration paramValue with
  | .error err => .error (WithStackTrace (.External err))
  | .ok duration =>
    -- make it negative so it goes back in time
    let duration := wrapInt64 (-1 * duration)
    let excludeAfter := sys.Now + duration
    .ok excludeAfter

/-! ## `promptForConfirmationBeforeNuking` -/

/-- The function `unicode.ToLower`: the ASCII branch is the standard library's
arithmetic on `A`..`Z`, the rest is the table lookup. -/
def unicodeToLower (table : Char → Char) (r : Char) : Char :=
  if r.toNat ≤ 0x7F then
    if 'A'.toNat ≤ r.toNat ∧ r.toNat ≤ 'Z'.toNat then Char.ofNat (r.toNat + 32) else r
  else table r

/-- The function `strings.ToLower` on a valid UTF-8 string: every rune is
mapped by `unicode.ToLower`. -/
def ToLower (table : Char → Char) (s : String) : String :=
  ⟨s.data.map (unicodeToLower table)⟩

/-- The loop `for i := 10; i > 0; i-- { fmt.Printf("%d...", i); time.Sleep(1 * time.Second) }`,
started at `i`. -/
def countdown : Nat → List Event
  | 0 => []
  | i + 1 => [.Print (toString (i + 1) ++ "..."), .Sleep (1 * Second)] ++ countdown i

def forceNotice : String :=
  "The --force flag is set, so waiting for 10 seconds before proceeding to nuke everything in your project. If you don't want to proceed, hit CTRL+C now!!"

def destructiveWarning : String :=
  "\nTHE NEXT STEPS ARE DESTRUCTIVE AND COMPLETELY IRREVERSIBLE, PROCEED WITH CAUTION!!!\n"

def confirmPrompt : String :=
  "\nAre you sure you want to nuke all listed resources? Enter 'nuke' to confirm: "

def promptForConfirmationBeforeNuking (sys : Sys) (force : Bool) :
    List Event × Except GoError Bool :=
  if force then
    ([.Confirmation true, .Info forceNotice] ++ countdown 10 ++ [.Print "\n"], .ok true)
  else
    let t := [.Confirmation false, .Print destructiveWarning, .PromptUserForInput confirmPrompt]
    match sys.PromptUserForInput confirmPrompt with
    | .error err => (t, .error (WithStackTrace (.External err)))
    | .ok input => (t, .ok (ToLower sys.UnicodeToLower input == "nuke"))

/-! ## `gcpNuke` -/

def regionIsValid (ctx : GcpContext) (region : String) : Bool :=
  ctx.ContainsRegion region

/-- The loop of `gcpNuke` over the excluded regions: the error it returns from
inside the loop, or `none` when the loop runs to its end. -/
def gcpCheckExcludedRegions (ctx : GcpContext) : List String → Option GoError
  | [] => none
  | excludedRegion :: rest =>
    if !regionIsValid ctx excludedRegion then
      some (.InvalidFlagError "exclude-region" excludedRegion)
    else gcpCheckExcludedRegions ctx rest

/-- The preview loop of `gcpNuke`: one log line a resource. -/
def gcpPreview (resources : List GcpResource) : List Event :=
  resources.map (fun resource =>
    .Info ("* " ++ resource.Kind ++ ": " ++ resource.Name ++ " Region=" ++ resource.Region
      ++ " Zone=" ++ resource.Zone))

def gcpNuke (env : GcpEnv) (c : Context) : Run :=
  let t0 : List Event := [.GcpDefaultContext]
  match env.DefaultContext with
  | .error err => ⟨t0, some (WithStackTrace (.External err))⟩
  | .ok ctx =>
    let t1 := t0 ++ [.Info ("Using project: " ++ ctx.Project)]
    let excludedRegions := c.StringSlice "exclude-region"
    match gcpCheckExcludedRegions ctx excludedRegions with
    | some err => ⟨t1, some err⟩
    | none =>
      match parseDurationParam env.sys (c.String "older-than") with
      | .error err => ⟨t1, some (WithStackTrace err)⟩
      | .ok excludeAfter =>
        let t2 := t1 ++ [.Info "Retrieving all active GCP resources",
          .GcpGetAllResources excludedRegions excludeAfter]
        match ctx.GetAllResources excludedRegions excludeAfter with
        | .error err => ⟨t2, some (WithStackTrace (.External err))⟩
        | .ok resources =>
          if resources.length = 0 then
            ⟨t2 ++ [.Info "Nothing to nuke, you're all good!"], none⟩
          else
            let t3 := t2 ++ [.Info "The following GCP resources are going to be nuked: "]
              ++ gcpPreview resources
            match promptForConfirmationBeforeNuking env.sys (c.Bool "force") with
            | (tg, .error err) => ⟨t3 ++ tg, some err⟩
            | (tg, .ok confirmation) =>
              if confirmation then
                let nukeErrors := ctx.NukeAllResources resources
                let t4 := t3 ++ tg ++ [.GcpNukeAllResources resources]
                if nukeErrors.length ≠ 0 then
                  ⟨t4 ++ nukeErrors.map (fun err => .Errorf (WithStackTrace (.External err))),
                    some (.New "Some resources failed to nuke.")⟩
                else ⟨t4, none⟩
              else ⟨t3 ++ tg, none⟩

/-! ## `awsNuke` -/

/-- The function `collections.ListContainsElement` of gruntwork-cli. -/
def ListContainsElement (list : List String) (element : String) : Bool :=
  match list with
  | [] => false
  | item :: rest => if item = element then true else ListContainsElement rest element

/-- The loop of `awsNuke` over the excluded regions: the error it returns from
inside the loop, or `none` when the loop runs to its end. -/
def awsCheckExcludedRegions (regions : List String) : List String → Option GoError
  | [] => none
  | excludedRegion :: rest =>
    if !ListContainsElement regions excludedRegion then
      some (.InvalidFlagError "exclude-regions" excludedRegion)
    else awsCheckExcludedRegions regions rest

/-- The preview loops of `awsNuke`: one log line an identifier. -/
def awsPreview (account : AwsAccountResources) : List Event :=
  (account.Resources.map (fun (region, resourcesInRegion) =>
    (resourcesInRegion.Resources.map (fun resources =>
      resources.ResourceIdentifiers.map (fun identifier =>
        Event.Info ("* " ++ resources.ResourceName ++ "-" ++ identifier ++ "-" ++ region
          ++ "\n")))).flatten)).flatten

def awsNuke (env : AwsEnv) (c : Context) : Run :=
  let regions := env.GetAllRegions
  let t0 : List Event := [.AwsGetAllRegions]
  let excludedRegions := c.StringSlice "exclude-region"
  match awsCheckExcludedRegions regions excludedRegions with
  | some err => ⟨t0, some err⟩
  | none =>
    match parseDurationParam env.sys (c.String "older-than") with
    | .error err => ⟨t0, some (WithStackTrace err)⟩
    | .ok excludeAfter =>
      let t1 := t0 ++ [.Info "Retrieving all active AWS resources",
        .AwsGetAllResources regions excludedRegions excludeAfter]
      match env.GetAllResources regions excludedRegions excludeAfter with
      | .error err => ⟨t1, some (WithStackTrace (.External err))⟩
      | .ok account =>
        if account.Resources.length = 0 then
          ⟨t1 ++ [.Info "Nothing to nuke, you're all good!"], none⟩
        else
          let t2 := t1 ++ [.Info "The following AWS resources are going to be nuked: "]
            ++ awsPreview account
          match promptForConfirmationBeforeNuking env.sys (c.Bool "force") with
          | (tg, .error err) => ⟨t2 ++ tg, some err⟩
          | (tg, .ok confirmation) =>
            if confirmation then
              let t3 := t2 ++ tg ++ [.AwsNukeAllResources account regions]
              match env.NukeAllResources account regions with
              | some err => ⟨t3, some (.External err)⟩
              | none => ⟨t3, none⟩
            else ⟨t2 ++ tg, none⟩

/-! ## Auxiliary notions for the statements -/

/-- The trace of `awsNuke` up to the confirmation gate. -/
def awsPrefix (env : AwsEnv) (c : Context) (cutoff : Time) (account : AwsAccountResources) :
    List Event :=
  [.AwsGetAllRegions, .Info "Retrieving all active AWS resources",
    .AwsGetAllResources env.GetAllRegions (c.StringSlice "exclude-region") cutoff,
    .Info "The following AWS resources are going to be nuked: "] ++ awsPreview account

/-- The trace of `gcpNuke` up to the confirmation gate. -/
def gcpPrefix (ctx : GcpContext) (c : Context) (cutoff : Time) (resources : List GcpResource) :
    List Event :=
  [.GcpDefaultContext, .Info ("Using project: " ++ ctx.Project),
    .Info "Retrieving all active GCP resources",
    .GcpGetAllResources (c.StringSlice "exclude-region") cutoff,
    .Info "The following GCP resources are going to be nuked: "] ++ gcpPreview resources

/-- The sixteen ways of writing `nuke` in upper- and lower-case ASCII letters. -/
def nukeSpellings : List String :=
  ["nuke", "nukE", "nuKe", "nuKE", "nUke", "nUkE", "nUKe", "nUKE",
    "Nuke", "NukE", "NuKe", "NuKE", "NUke", "NUkE", "NUKe", "NUKE"]

/-- The event is a log line (`Info` or `Errorf`), hence no call of a collaborator. -/
def Event.isLog : Event → Bool
  | .Info _ => true
  | .Errorf _ => true
  | _ => false

/-! ## Concrete collaborators, for the worked examples -/

/-- A few entries of the Unicode case table: the Kelvin sign lowers to `k`,
the Latin-1 capitals lower by 32; runes not listed are left alone. -/
def caseTableExcerpt (r : Char) : Char :=
  if r.toNat = 0x212A then 'k'
  else if 0xC0 ≤ r.toNat ∧ r.toNat ≤ 0xDE ∧ r.toNat ≠ 0xD7 then Char.ofNat (r.toNat + 32)
  else r

/-- Values of `time.ParseDuration` on four strings; every other string is
treated as rejected. -/
def exampleParseDuration (s : String) : Except ExtError Duration :=
  if s = "0s" then .ok 0
  else if s = "10m" then .ok (10 * Minute)
  else if s = "-2562047h47m16.854775808s" then .ok MinInt64
  else .error ⟨"time: invalid duration", false⟩

/-- A clock reading in June 2018. -/
def exampleNow : Time := 1530000000 * Second

/-- Collaborators whose prompt yields `reply`. -/
def exampleSys (reply : Except ExtError String) : Sys :=
  { ParseDuration := exampleParseDuration
    Now := exampleNow
    PromptUserForInput := fun _ => reply
    UnicodeToLower := caseTableExcerpt }

/-- An AWS account with three regions and one instance in every region that
is not excluded; `failure` is what `aws.NukeAllResources` returns. -/
def exampleAwsEnv (reply : Except ExtError String) (failure : Option ExtError) : AwsEnv :=
  { sys := exampleSys reply
    GetAllRegions := ["us-east-1", "us-west-2", "eu-west-1"]
    GetAllResources := fun regions excludedRegions _ =>
      .ok ⟨(regions.filter (fun r => !ListContainsElement excludedRegions r)).map
        (fun r => (r, ⟨[⟨"ec2", ["i-0abc"]⟩]⟩))⟩
    NukeAllResources := fun _ _ => failure }

/-- A GCP project with two regions and one instance, in `us-central1`;
`failures` is what `ctx.NukeAllResources` returns. -/
def exampleGcpContext (failures : List ExtError) : GcpContext :=
  { Project := "demo-project"
    ContainsRegion := fun r => ListContainsElement ["us-central1", "europe-west1"] r
    GetAllResources := fun excludedRegions _ =>
      .ok (if ListContainsElement excludedRegions "us-central1" then []
        else [⟨"instance", "vm-1", "us-central1", "us-central1-a"⟩])
    NukeAllResources := fun _ => failures }

def exampleGcpEnv (reply : Except ExtError String) (failures : List ExtError) : GcpEnv :=
  { sys := exampleSys reply
    DefaultContext := .ok (exampleGcpContext failures) }

/-- The flag values of an invocation
`--exclude-region .. --older-than olderThan [--force]`. -/
def exampleContext (excluded : List String) (olderThan : String) (force : Bool) : Context :=
  { StringSlice := fun name => if name = "exclude-region" then excluded else []
    String := fun name => if name = "older-than" then olderThan else ""
    Bool := fun name => if name = "force" then force else false }

/-! ## Membership tests and the exclusion loops -/

theorem ListContainsElement_iff (list : List String) (element : String) :
    ListContainsElement list element = true ↔ element ∈ list := by
  induction list with
  | nil => simp [ListContainsElement]
  | cons item rest ih =>
    simp only [ListContainsElement, List.mem_cons]
    by_cases h : item = element
    · simp [h]
    · simp [h, ih, Ne.symm h]

theorem ListContainsElement_eq_false_iff (list : List String) (element : String) :
    ListContainsElement list element = false ↔ element ∉ list := by
  rw [← ListContainsElement_iff]; simp

/-- A list with an entry failing `p` splits at the first such entry. -/
theorem exists_first_failing (p : String → Bool) (l : List String)
    (h : ∃ r ∈ l, p r = false) :
    ∃ pre v post, l = pre ++ v :: post ∧ (∀ r ∈ pre, p r = true) ∧ p v = false := by
  induction l with
  | nil => simp at h
  | cons a rest ih =>
    by_cases ha : p a = true
    · have h2 : ∃ r ∈ rest, p r = false := by
        obtain ⟨r, hr, hpr⟩ := h
        rcases List.mem_cons.mp hr with rfl | hr
        · simp [ha] at hpr
        · exact ⟨r, hr, hpr⟩
      obtain ⟨pre, v, post, hl, hpre, hv⟩ := ih h2
      refine ⟨a :: pre, v, post, by simp [hl], ?_, hv⟩
      intro r hr
      rcases List.mem_cons.mp hr with rfl | hr
      · exact ha
      · exact hpre r hr
    · exact ⟨[], a, rest, rfl, by simp, by simpa using ha⟩

theorem awsCheckExcludedRegions_first (regions pre post : List String) (v : String)
    (hpre : ∀ r ∈ pre, r ∈ regions) (hv : v ∉ regions) :
    awsCheckExcludedRegions regions (pre ++ v :: post)
      = some (.InvalidFlagError "exclude-regions" v) := by
  induction pre with
  | nil =>
    simp [awsCheckExcludedRegions, (ListContainsElement_eq_false_iff regions v).mpr hv]
  | cons a rest ih =>
    have ha : ListContainsElement regions a = true :=
      (ListContainsElement_iff regions a).mpr (hpre a (by simp))
    simp only [List.cons_append, awsCheckExcludedRegions, ha]
    exact ih (fun r hr => hpre r (by simp [hr]))

theorem awsCheckExcludedRegions_none (regions l : List String)
    (h : ∀ r ∈ l, r ∈ regions) : awsCheckExcludedRegions regions l = none := by
  induction l with
  | nil => rfl
  | cons a rest ih =>
    have ha : ListContainsElement regions a = true :=
      (ListContainsElement_iff regions a).mpr (h a (by simp))
    simp only [awsCheckExcludedRegions, ha]
    exact ih (fun r hr => h r (by simp [hr]))

theorem gcpCheckExcludedRegions_first (ctx : GcpContext) (pre post : List String) (v : String)
    (hpre : ∀ r ∈ pre, ctx.ContainsRegion r = true) (hv : ctx.ContainsRegion v = false) :
    gcpCheckExcludedRegions ctx (pre ++ v :: post)
      = some (.InvalidFlagError "exclude-region" v) := by
  induction pre with
  | nil => simp [gcpCheckExcludedRegions, regionIsValid, hv]
  | cons a rest ih =>
    have ha : ctx.ContainsRegion a = true := hpre a (by simp)
    simp only [List.cons_append, gcpCheckExcludedRegions, regionIsValid, ha]
    exact ih (fun r hr => hpre r (by simp [hr]))

theorem gcpCheckExcludedRegions_none (ctx : GcpContext) (l : List String)
    (h : ∀ r ∈ l, ctx.ContainsRegion r = true) : gcpCheckExcludedRegions ctx l = none := by
  induction l with
  | nil => rfl
  | cons a rest ih =>
    have ha : ctx.ContainsRegion a = true := h a (by simp)
    simp only [gcpCheckExcludedRegions, regionIsValid, ha]
    exact ih (fun r hr => h r (by simp [hr]))

/-- An exclusion list with an entry outside the region list makes the AWS loop fail. -/
theorem awsCheckExcludedRegions_invalid (regions l : List String)
    (h : ∃ r ∈ l, r ∉ regions) :
    ∃ v, awsCheckExcludedRegions regions l = some (.InvalidFlagError "exclude-regions" v) := by
  have h2 : ∃ r ∈ l, (fun r => decide (r ∈ regions)) r = false := by
    obtain ⟨r, hr, hn⟩ := h
    exact ⟨r, hr, by simpa using hn⟩
  obtain ⟨pre, v, post, hl, hpre, hv⟩ := exists_first_failing _ l h2
  refine ⟨v, ?_⟩
  rw [hl]
  exact awsCheckExcludedRegions_first regions pre post v
    (fun r hr => by simpa using hpre r hr) (by simpa using hv)

/-- An exclusion list with an entry the context does not contain makes the GCP loop fail. -/
theorem gcpCheckExcludedRegions_invalid (ctx : GcpContext) (l : List String)
    (h : ∃ r ∈ l, ctx.ContainsRegion r = false) :
    ∃ v, gcpCheckExcludedRegions ctx l = some (.InvalidFlagError "exclude-region" v) := by
  obtain ⟨pre, v, post, hl, hpre, hv⟩ := exists_first_failing ctx.ContainsRegion l h
  exact ⟨v, by rw [hl]; exact gcpCheckExcludedRegions_first ctx pre post v hpre hv⟩

/-! ## The stages of a run -/

theorem awsNuke_invalid (env : AwsEnv) (c : Context) (e : GoError)
    (h : awsCheckExcludedRegions env.GetAllRegions (c.StringSlice "exclude-region") = some e) :
    awsNuke env c = ⟨[.AwsGetAllRegions], some e⟩ := by
  simp [awsNuke, h]

theorem awsNuke_parse_error (env : AwsEnv) (c : Context) (e : GoError)
    (h : awsCheckExcludedRegions env.GetAllRegions (c.StringSlice "exclude-region") = none)
    (hp : parseDurationParam env.sys (c.String "older-than") = .error e) :
    awsNuke env c = ⟨[.AwsGetAllRegions], some (WithStackTrace e)⟩ := by
  simp [awsNuke, h, hp]

theorem awsNuke_list_error (env : AwsEnv) (c : Context) (cutoff : Time) (e : ExtError)
    (h : awsCheckExcludedRegions env.GetAllRegions (c.StringSlice "exclude-region") = none)
    (hp : parseDurationParam env.sys (c.String "older-than") = .ok cutoff)
    (hl : env.GetAllResources env.GetAllRegions (c.StringSlice "exclude-region") cutoff
      = .error e) :
    awsNuke env c = ⟨[.AwsGetAllRegions, .Info "Retrieving all active AWS resources",
      .AwsGetAllResources env.GetAllRegions (c.StringSlice "exclude-region") cutoff],
      some (WithStackTrace (.External e))⟩ := by
  simp [awsNuke, h, hp, hl]

theorem awsNuke_empty (env : AwsEnv) (c : Context) (cutoff : Time)
    (account : AwsAccountResources)
    (h : awsCheckExcludedRegions env.GetAllRegions (c.StringSlice "exclude-region") = none)
    (hp : parseDurationParam env.sys (c.String "older-than") = .ok cutoff)
    (hl : env.GetAllResources env.GetAllRegions (c.StringSlice "exclude-region") cutoff
      = .ok account)
    (hz : account.Resources.length = 0) :
    awsNuke env c = ⟨[.AwsGetAllRegions, .Info "Retrieving all active AWS resources",
      .AwsGetAllResources env.GetAllRegions (c.StringSlice "exclude-region") cutoff,
      .Info "Nothing to nuke, you're all good!"], none⟩ := by
  simp [awsNuke, h, hp, hl, hz]

theorem awsNuke_gate_error (env : AwsEnv) (c : Context) (cutoff : Time)
    (account : AwsAccountResources) (e : GoError)
    (h : awsCheckExcludedRegions env.GetAllRegions (c.StringSlice "exclude-region") = none)
    (hp : parseDurationParam env.sys (c.String "older-than") = .ok cutoff)
    (hl : env.GetAllResources env.GetAllRegions (c.StringSlice "exclude-region") cutoff
      = .ok account)
    (hz : account.Resources.length ≠ 0)
    (hg : (promptForConfirmationBeforeNuking env.sys (c.Bool "force")).2 = .error e) :
    awsNuke env c = ⟨awsPrefix env c cutoff account
      ++ (promptForConfirmationBeforeNuking env.sys (c.Bool "force")).1, some e⟩ := by
  simp only [awsNuke, h, hp, hl, hz, if_false, awsPrefix]
  rcases hq : promptForConfirmationBeforeNuking env.sys (c.Bool "force") with ⟨tg, g⟩
  rw [hq] at hg
  simp only at hg
  subst hg
  simp

theorem awsNuke_declined (env : AwsEnv) (c : Context) (cutoff : Time)
    (account : AwsAccountResources)
    (h : awsCheckExcludedRegions env.GetAllRegions (c.StringSlice "exclude-region") = none)
    (hp : parseDurationParam env.sys (c.String "older-than") = .ok cutoff)
    (hl : env.GetAllResources env.GetAllRegions (c.StringSlice "exclude-region") cutoff
      = .ok account)
    (hz : account.Resources.length ≠ 0)
    (hg : (promptForConfirmationBeforeNuking env.sys (c.Bool "force")).2 = .ok false) :
    awsNuke env c = ⟨awsPrefix env c cutoff account
      ++ (promptForConfirmationBeforeNuking env.sys (c.Bool "force")).1, none⟩ := by
  simp only [awsNuke, h, hp, hl, hz, if_false, awsPrefix]
  rcases hq : promptForConfirmationBeforeNuking env.sys (c.Bool "force") with ⟨tg, g⟩
  rw [hq] at hg
  simp only at hg
  subst hg
  simp

theorem awsNuke_confirmed (env : AwsEnv) (c : Context) (cutoff : Time)
    (account : AwsAccountResources)
    (h : awsCheckExcludedRegions env.GetAllRegions (c.StringSlice "exclude-region") = none)
    (hp : parseDurationParam env.sys (c.String "older-than") = .ok cutoff)
    (hl : env.GetAllResources env.GetAllRegions (c.StringSlice "exclude-region") cutoff
      = .ok account)
    (hz : account.Resources.length ≠ 0)
    (hg : (promptForConfirmationBeforeNuking env.sys (c.Bool "force")).2 = .ok true) :
    awsNuke env c = ⟨awsPrefix env c cutoff account
      ++ (promptForConfirmationBeforeNuking env.sys (c.Bool "force")).1
      ++ [.AwsNukeAllResources account env.GetAllRegions],
      (env.NukeAllResources account env.GetAllRegions).map .External⟩ := by
  simp only [awsNuke, h, hp, hl, hz, if_false, awsPrefix]
  rcases hq : promptForConfirmationBeforeNuking env.sys (c.Bool "force") with ⟨tg, g⟩
  rw [hq] at hg
  simp only at hg
  subst hg
  cases hn : env.NukeAllResources account env.GetAllRegions <;> simp

theorem gcpNuke_context_error (env : GcpEnv) (c : Context) (e : ExtError)
    (hc : env.DefaultContext = .error e) :
    gcpNuke env c = ⟨[.GcpDefaultContext], some (WithStackTrace (.External e))⟩ := by
  simp [gcpNuke, hc]

theorem gcpNuke_invalid (env : GcpEnv) (ctx : GcpContext) (c : Context) (e : GoError)
    (hc : env.DefaultContext = .ok ctx)
    (h : gcpCheckExcludedRegions ctx (c.StringSlice "exclude-region") = some e) :
    gcpNuke env c = ⟨[.GcpDefaultContext, .Info ("Using project: " ++ ctx.Project)],
      some e⟩ := by
  simp [gcpNuke, hc, h]

theorem gcpNuke_parse_error (env : GcpEnv) (ctx : GcpContext) (c : Context) (e : GoError)
    (hc : env.DefaultContext = .ok ctx)
    (h : gcpCheckExcludedRegions ctx (c.StringSlice "exclude-region") = none)
    (hp : parseDurationParam env.sys (c.String "older-than") = .error e) :
    gcpNuke env c = ⟨[.GcpDefaultContext, .Info ("Using project: " ++ ctx.Project)],
      some (WithStackTrace e)⟩ := by
  simp [gcpNuke, hc, h, hp]

theorem gcpNuke_list_error (env : GcpEnv) (ctx : GcpContext) (c : Context) (cutoff : Time)
    (e : ExtError)
    (hc : env.DefaultContext = .ok ctx)
    (h : gcpCheckExcludedRegions ctx (c.StringSlice "exclude-region") = none)
    (hp : parseDurationParam env.sys (c.String "older-than") = .ok cutoff)
    (hl : ctx.GetAllResources (c.StringSlice "exclude-region") cutoff = .error e) :
    gcpNuke env c = ⟨[.GcpDefaultContext, .Info ("Using project: " ++ ctx.Project),
      .Info "Retrieving all active GCP resources",
      .GcpGetAllResources (c.StringSlice "exclude-region") cutoff],
      some (WithStackTrace (.External e))⟩ := by
  simp [gcpNuke, hc, h, hp, hl]

theorem gcpNuke_empty (env : GcpEnv) (ctx : GcpContext) (c : Context) (cutoff : Time)
    (resources : List GcpResource)
    (hc : env.DefaultContext = .ok ctx)
    (h : gcpCheckExcludedRegions ctx (c.StringSlice "exclude-region") = none)
    (hp : parseDurationParam env.sys (c.String "older-than") = .ok cutoff)
    (hl : ctx.GetAllResources (c.StringSlice "exclude-region") cutoff = .ok resources)
    (hz : resources.length = 0) :
    gcpNuke env c = ⟨[.GcpDefaultContext, .Info ("Using project: " ++ ctx.Project),
      .Info "Retrieving all active GCP resources",
      .GcpGetAllResources (c.StringSlice "exclude-region") cutoff,
      .Info "Nothing to nuke, you're all good!"], none⟩ := by
  simp [gcpNuke, hc, h, hp, hl, hz]

theorem gcpNuke_gate_error (env : GcpEnv) (ctx : GcpContext) (c : Context) (cutoff : Time)
    (resources : List GcpResource) (e : GoError)
    (hc : env.DefaultContext = .ok ctx)
    (h : gcpCheckExcludedRegions ctx (c.StringSlice "exclude-region") = none)
    (hp : parseDurationParam env.sys (c.String "older-than") = .ok cutoff)
    (hl : ctx.GetAllResources (c.StringSlice "exclude-region") cutoff = .ok resources)
    (hz : resources.length ≠ 0)
    (hg : (promptForConfirmationBeforeNuking env.sys (c.Bool "force")).2 = .error e) :
    gcpNuke env c = ⟨gcpPrefix ctx c cutoff resources
      ++ (promptForConfirmationBeforeNuking env.sys (c.Bool "force")).1, some e⟩ := by
  simp only [gcpNuke, hc, h, hp, hl, hz, if_false, gcpPrefix]
  rcases hq : promptForConfirmationBeforeNuking env.sys (c.Bool "force") with ⟨tg, g⟩
  rw [hq] at hg
  simp only at hg
  subst hg
  simp

theorem gcpNuke_declined (env : GcpEnv) (ctx : GcpContext) (c : Context) (cutoff : Time)
    (resources : List GcpResource)
    (hc : env.DefaultContext = .ok ctx)
    (h : gcpCheckExcludedRegions ctx (c.StringSlice "exclude-region") = none)
    (hp : parseDurationParam env.sys (c.String "older-than") = .ok cutoff)
    (hl : ctx.GetAllResources (c.StringSlice "exclude-region") cutoff = .ok resources)
    (hz : resources.length ≠ 0)
    (hg : (promptForConfirmationBeforeNuking env.sys (c.Bool "force")).2 = .ok false) :
    gcpNuke env c = ⟨gcpPrefix ctx c cutoff resources
      ++ (promptForConfirmationBeforeNuking env.sys (c.Bool "force")).1, none⟩ := by
  simp only [gcpNuke, hc, h, hp, hl, hz, if_false, gcpPrefix]
  rcases hq : promptForConfirmationBeforeNuking env.sys (c.Bool "force") with ⟨tg, g⟩
  rw [hq] at hg
  simp only at hg
  subst hg
  simp

theorem gcpNuke_confirmed_failures (env : GcpEnv) (ctx : GcpContext) (c : Context)
    (cutoff : Time) (resources : List GcpResource)
    (hc : env.DefaultContext = .ok ctx)
    (h : gcpCheckExcludedRegions ctx (c.StringSlice "exclude-region") = none)
    (hp : parseDurationParam env.sys (c.String "older-than") = .ok cutoff)
    (hl : ctx.GetAllResources (c.StringSlice "exclude-region") cutoff = .ok resources)
    (hz : resources.length ≠ 0)
    (hg : (promptForConfirmationBeforeNuking env.sys (c.Bool "force")).2 = .ok true)
    (hf : (ctx.NukeAllResources resources).length ≠ 0) :
    gcpNuke env c = ⟨gcpPrefix ctx c cutoff resources
      ++ (promptForConfirmationBeforeNuking env.sys (c.Bool "force")).1
      ++ [.GcpNukeAllResources resources]
      ++ (ctx.NukeAllResources resources).map
        (fun err => .Errorf (WithStackTrace (.External err))),
      some (.New "Some resources failed to nuke.")⟩ := by
  simp only [gcpNuke, hc, h, hp, hl, hz, if_false, gcpPrefix]
  rcases hq : promptForConfirmationBeforeNuking env.sys (c.Bool "force") with ⟨tg, g⟩
  rw [hq] at hg
  simp only at hg
  subst hg
  simp [hf]

theorem gcpNuke_confirmed_clean (env : GcpEnv) (ctx : GcpContext) (c : Context)
    (cutoff : Time) (resources : List GcpResource)
    (hc : env.DefaultContext = .ok ctx)
    (h : gcpCheckExcludedRegions ctx (c.StringSlice "exclude-region") = none)
    (hp : parseDurationParam env.sys (c.String "older-than") = .ok cutoff)
    (hl : ctx.GetAllResources (c.StringSlice "exclude-region") cutoff = .ok resources)
    (hz : resources.length ≠ 0)
    (hg : (promptForConfirmationBeforeNuking env.sys (c.Bool "force")).2 = .ok true)
    (hf : (ctx.NukeAllResources resources).length = 0) :
    gcpNuke env c = ⟨gcpPrefix ctx c cutoff resources
      ++ (promptForConfirmationBeforeNuking env.sys (c.Bool "force")).1
      ++ [.GcpNukeAllResources resources], none⟩ := by
  simp only [gcpNuke, hc, h, hp, hl, hz, if_false, gcpPrefix]
  rcases hq : promptForConfirmationBeforeNuking env.sys (c.Bool "force") with ⟨tg, g⟩
  rw [hq] at hg
  simp only at hg
  subst hg
  simp [hf]

/-! ## What the pieces of a trace contain -/

theorem isLog_not_call (e : Event) (h : e.isLog = true) :
    e.isList = false ∧ e.isNuke = false ∧ e.isGate = false := by
  cases e <;> simp_all [Event.isLog, Event.isList, Event.isNuke, Event.isGate]

theorem isGate_not_call (e : Event) (h : e.isGate = true) :
    e.isList = false ∧ e.isNuke = false := by
  cases e <;> simp_all [Event.isList, Event.isNuke, Event.isGate]

theorem awsPreview_isLog (account : AwsAccountResources) :
    ∀ e ∈ awsPreview account, e.isLog = true := by
  intro e he
  simp only [awsPreview, List.mem_flatten, List.mem_map] at he
  obtain ⟨l, ⟨p, _, rfl⟩, he⟩ := he
  simp only [List.mem_flatten, List.mem_map] at he
  obtain ⟨l2, ⟨q, _, rfl⟩, he⟩ := he
  simp only [List.mem_map] at he
  obtain ⟨i, _, rfl⟩ := he
  rfl

theorem gcpPreview_isLog (resources : List GcpResource) :
    ∀ e ∈ gcpPreview resources, e.isLog = true := by
  intro e he
  simp only [gcpPreview, List.mem_map] at he
  obtain ⟨r, _, rfl⟩ := he
  rfl

theorem errorLines_isLog (l : List ExtError) :
    ∀ e ∈ l.map (fun err => Event.Errorf (WithStackTrace (.External err))), e.isLog = true := by
  intro e he
  simp only [List.mem_map] at he
  obtain ⟨r, _, rfl⟩ := he
  rfl

theorem countdown_isGate (n : Nat) : ∀ e ∈ countdown n, e.isGate = true := by
  induction n with
  | zero => simp [countdown]
  | succ i ih =>
    intro e he
    simp only [countdown, List.cons_append, List.nil_append, List.mem_cons] at he
    rcases he with rfl | rfl | he
    · rfl
    · rfl
    · exact ih e he

/-- The confirmation gate calls neither `GetAllResources` nor `NukeAllResources`. -/
theorem gate_trace_no_call (sys : Sys) (force : Bool) :
    ∀ e ∈ (promptForConfirmationBeforeNuking sys force).1,
      e.isList = false ∧ e.isNuke = false := by
  intro e he
  cases force with
  | true =>
    simp only [promptForConfirmationBeforeNuking, if_true, List.cons_append, List.nil_append,
      List.mem_cons, List.mem_append, List.not_mem_nil, or_false] at he
    rcases he with rfl | rfl | he | rfl
    · exact ⟨rfl, rfl⟩
    · exact ⟨rfl, rfl⟩
    · exact isGate_not_call e (countdown_isGate 10 e he)
    · exact ⟨rfl, rfl⟩
  | false =>
    have h1 : (promptForConfirmationBeforeNuking sys false).1
        = [.Confirmation false, .Print destructiveWarning, .PromptUserForInput confirmPrompt] := by
      simp only [promptForConfirmationBeforeNuking]
      cases sys.PromptUserForInput confirmPrompt <;> simp
    rw [h1] at he
    simp only [List.mem_cons, List.mem_singleton, List.not_mem_nil, or_false] at he
    rcases he with rfl | rfl | rfl <;> exact ⟨rfl, rfl⟩

/-- The gate records its own invocation. -/
theorem gate_trace_entry (sys : Sys) (force : Bool) :
    Event.Confirmation force ∈ (promptForConfirmationBeforeNuking sys force).1 := by
  cases force with
  | true => simp [promptForConfirmationBeforeNuking]
  | false =>
    simp only [promptForConfirmationBeforeNuking]
    cases sys.PromptUserForInput confirmPrompt <;> simp

theorem awsPrefix_events (env : AwsEnv) (c : Context) (cutoff : Time)
    (account : AwsAccountResources) :
    ∀ e ∈ awsPrefix env c cutoff account, e.isNuke = false ∧ e.isGate = false ∧
      (e.isList = true →
        e = .AwsGetAllResources env.GetAllRegions (c.StringSlice "exclude-region") cutoff) := by
  intro e he
  simp only [awsPrefix, List.cons_append, List.nil_append, List.mem_cons] at he
  rcases he with rfl | rfl | rfl | rfl | he
  · exact ⟨rfl, rfl, by simp [Event.isList]⟩
  · exact ⟨rfl, rfl, by simp [Event.isList]⟩
  · exact ⟨rfl, rfl, fun _ => rfl⟩
  · exact ⟨rfl, rfl, by simp [Event.isList]⟩
  · have h := isLog_not_call e (awsPreview_isLog account e he)
    exact ⟨h.2.1, h.2.2, by simp [h.1]⟩

theorem gcpPrefix_events (ctx : GcpContext) (c : Context) (cutoff : Time)
    (resources : List GcpResource) :
    ∀ e ∈ gcpPrefix ctx c cutoff resources, e.isNuke = false ∧ e.isGate = false ∧
      (e.isList = true → e = .GcpGetAllResources (c.StringSlice "exclude-region") cutoff) := by
  intro e he
  simp only [gcpPrefix, List.cons_append, List.nil_append, List.mem_cons] at he
  rcases he with rfl | rfl | rfl | rfl | rfl | he
  · exact ⟨rfl, rfl, by simp [Event.isList]⟩
  · exact ⟨rfl, rfl, by simp [Event.isList]⟩
  · exact ⟨rfl, rfl, by simp [Event.isList]⟩
  · exact ⟨rfl, rfl, fun _ => rfl⟩
  · exact ⟨rfl, rfl, by simp [Event.isList]⟩
  · have h := isLog_not_call e (gcpPreview_isLog resources e he)
    exact ⟨h.2.1, h.2.2, by simp [h.1]⟩

theorem countP_eq_zero_of_forall (p : Event → Bool) (l : List Event)
    (h : ∀ e ∈ l, p e = false) : l.countP p = 0 := by
  rw [List.countP_eq_zero]
  intro e he
  simp [h e he]

theorem countP_isList_awsPreview (account : AwsAccountResources) :
    (awsPreview account).countP Event.isList = 0 :=
  countP_eq_zero_of_forall _ _ (fun e he => (isLog_not_call e (awsPreview_isLog account e he)).1)

theorem countP_isList_gcpPreview (resources : List GcpResource) :
    (gcpPreview resources).countP Event.isList = 0 :=
  countP_eq_zero_of_forall _ _ (fun e he => (isLog_not_call e (gcpPreview_isLog resources e he)).1)

theorem countP_isList_awsPrefix (env : AwsEnv) (c : Context) (cutoff : Time)
    (account : AwsAccountResources) :
    (awsPrefix env c cutoff account).countP Event.isList = 1 := by
  simp [awsPrefix, List.countP_cons, Event.isList, countP_isList_awsPreview]

theorem countP_isList_gcpPrefix (ctx : GcpContext) (c : Context) (cutoff : Time)
    (resources : List GcpResource) :
    (gcpPrefix ctx c cutoff resources).countP Event.isList = 1 := by
  simp [gcpPrefix, List.countP_cons, Event.isList, countP_isList_gcpPreview]

theorem countP_isNuke_awsPrefix (env : AwsEnv) (c : Context) (cutoff : Time)
    (account : AwsAccountResources) :
    (awsPrefix env c cutoff account).countP Event.isNuke = 0 :=
  countP_eq_zero_of_forall _ _ (fun e he => (awsPrefix_events env c cutoff account e he).1)

theorem countP_isNuke_gcpPrefix (ctx : GcpContext) (c : Context) (cutoff : Time)
    (resources : List GcpResource) :
    (gcpPrefix ctx c cutoff resources).countP Event.isNuke = 0 :=
  countP_eq_zero_of_forall _ _ (fun e he => (gcpPrefix_events ctx c cutoff resources e he).1)

theorem countP_isList_gate (sys : Sys) (force : Bool) :
    (promptForConfirmationBeforeNuking sys force).1.countP Event.isList = 0 :=
  countP_eq_zero_of_forall _ _ (fun e he => (gate_trace_no_call sys force e he).1)

theorem countP_isNuke_gate (sys : Sys) (force : Bool) :
    (promptForConfirmationBeforeNuking sys force).1.countP Event.isNuke = 0 :=
  countP_eq_zero_of_forall _ _ (fun e he => (gate_trace_no_call sys force e he).2)

theorem countP_isList_errorLines (l : List ExtError) :
    (l.map (fun err => Event.Errorf (WithStackTrace (.External err)))).countP Event.isList = 0 :=
  countP_eq_zero_of_forall _ _ (fun e he => (isLog_not_call e (errorLines_isLog l e he)).1)

theorem countP_isNuke_errorLines (l : List ExtError) :
    (l.map (fun err => Event.Errorf (WithStackTrace (.External err)))).countP Event.isNuke = 0 :=
  countP_eq_zero_of_forall _ _ (fun e he => (isLog_not_call e (errorLines_isLog l e he)).2.1)

/-! ## Every run is in one of its stages -/

/-- The gate returns an error, `false` or `true`. -/
theorem gate_result_cases (sys : Sys) (force : Bool) :
    (∃ e, (promptForConfirmationBeforeNuking sys force).2 = .error e)
    ∨ (promptForConfirmationBeforeNuking sys force).2 = .ok false
    ∨ (promptForConfirmationBeforeNuking sys force).2 = .ok true := by
  rcases h : (promptForConfirmationBeforeNuking sys force).2 with e | b
  · exact Or.inl ⟨e, rfl⟩
  · cases b
    · exact Or.inr (Or.inl rfl)
    · exact Or.inr (Or.inr rfl)

theorem awsNuke_cases (env : AwsEnv) (c : Context) :
    (∃ e, awsCheckExcludedRegions env.GetAllRegions (c.StringSlice "exclude-region") = some e
      ∧ awsNuke env c = ⟨[.AwsGetAllRegions], some e⟩)
    ∨ (∃ e, awsCheckExcludedRegions env.GetAllRegions (c.StringSlice "exclude-region") = none
      ∧ parseDurationParam env.sys (c.String "older-than") = .error e
      ∧ awsNuke env c = ⟨[.AwsGetAllRegions], some (WithStackTrace e)⟩)
    ∨ (∃ cutoff e,
      awsCheckExcludedRegions env.GetAllRegions (c.StringSlice "exclude-region") = none
      ∧ parseDurationParam env.sys (c.String "older-than") = .ok cutoff
      ∧ env.GetAllResources env.GetAllRegions (c.StringSlice "exclude-region") cutoff = .error e
      ∧ awsNuke env c = ⟨[.AwsGetAllRegions, .Info "Retrieving all active AWS resources",
          .AwsGetAllResources env.GetAllRegions (c.StringSlice "exclude-region") cutoff],
          some (WithStackTrace (.External e))⟩)
    ∨ (∃ cutoff account,
      awsCheckExcludedRegions env.GetAllRegions (c.StringSlice "exclude-region") = none
      ∧ parseDurationParam env.sys (c.String "older-than") = .ok cutoff
      ∧ env.GetAllResources env.GetAllRegions (c.StringSlice "exclude-region") cutoff
        = .ok account
      ∧ account.Resources.length = 0
      ∧ awsNuke env c = ⟨[.AwsGetAllRegions, .Info "Retrieving all active AWS resources",
          .AwsGetAllResources env.GetAllRegions (c.StringSlice "exclude-region") cutoff,
          .Info "Nothing to nuke, you're all good!"], none⟩)
    ∨ (∃ cutoff account e,
      awsCheckExcludedRegions env.GetAllRegions (c.StringSlice "exclude-region") = none
      ∧ parseDurationParam env.sys (c.String "older-than") = .ok cutoff
      ∧ env.GetAllResources env.GetAllRegions (c.StringSlice "exclude-region") cutoff
        = .ok account
      ∧ account.Resources.length ≠ 0
      ∧ (promptForConfirmationBeforeNuking env.sys (c.Bool "force")).2 = .error e
      ∧ awsNuke env c = ⟨awsPrefix env c cutoff account
          ++ (promptForConfirmationBeforeNuking env.sys (c.Bool "force")).1, some e⟩)
    ∨ (∃ cutoff account,
      awsCheckExcludedRegions env.GetAllRegions (c.StringSlice "exclude-region") = none
      ∧ parseDurationParam env.sys (c.String "older-than") = .ok cutoff
      ∧ env.GetAllResources env.GetAllRegions (c.StringSlice "exclude-region") cutoff
        = .ok account
      ∧ account.Resources.length ≠ 0
      ∧ (promptForConfirmationBeforeNuking env.sys (c.Bool "force")).2 = .ok false
      ∧ awsNuke env c = ⟨awsPrefix env c cutoff account
          ++ (promptForConfirmationBeforeNuking env.sys (c.Bool "force")).1, none⟩)
    ∨ (∃ cutoff account,
      awsCheckExcludedRegions env.GetAllRegions (c.StringSlice "exclude-region") = none
      ∧ parseDurationParam env.sys (c.String "older-than") = .ok cutoff
      ∧ env.GetAllResources env.GetAllRegions (c.StringSlice "exclude-region") cutoff
        = .ok account
      ∧ account.Resources.length ≠ 0
      ∧ (promptForConfirmationBeforeNuking env.sys (c.Bool "force")).2 = .ok true
      ∧ awsNuke env c = ⟨awsPrefix env c cutoff account
          ++ (promptForConfirmationBeforeNuking env.sys (c.Bool "force")).1
          ++ [.AwsNukeAllResources account env.GetAllRegions],
          (env.NukeAllResources account env.GetAllRegions).map .External⟩) := by
  rcases h : awsCheckExcludedRegions env.GetAllRegions (c.StringSlice "exclude-region")
    with _ | e
  swap
  · exact Or.inl ⟨e, rfl, awsNuke_invalid env c e h⟩
  rcases hp : parseDurationParam env.sys (c.String "older-than") with e | cutoff
  · exact Or.inr (Or.inl ⟨e, rfl, rfl, awsNuke_parse_error env c e h hp⟩)
  rcases hl : env.GetAllResources env.GetAllRegions (c.StringSlice "exclude-region") cutoff
    with e | account
  · exact Or.inr (Or.inr (Or.inl ⟨cutoff, e, rfl, rfl, hl, awsNuke_list_error env c cutoff e h hp hl⟩))
  by_cases hz : account.Resources.length = 0
  · exact Or.inr (Or.inr (Or.inr (Or.inl
      ⟨cutoff, account, rfl, rfl, hl, hz, awsNuke_empty env c cutoff account h hp hl hz⟩)))
  rcases gate_result_cases env.sys (c.Bool "force") with ⟨e, hg⟩ | hg | hg
  · exact Or.inr (Or.inr (Or.inr (Or.inr (Or.inl
      ⟨cutoff, account, e, rfl, rfl, hl, hz, hg,
        awsNuke_gate_error env c cutoff account e h hp hl hz hg⟩))))
  · exact Or.inr (Or.inr (Or.inr (Or.inr (Or.inr (Or.inl
      ⟨cutoff, account, rfl, rfl, hl, hz, hg,
        awsNuke_declined env c cutoff account h hp hl hz hg⟩)))))
  · exact Or.inr (Or.inr (Or.inr (Or.inr (Or.inr (Or.inr
      ⟨cutoff, account, rfl, rfl, hl, hz, hg,
        awsNuke_confirmed env c cutoff account h hp hl hz hg⟩)))))

theorem gcpNuke_cases (env : GcpEnv) (ctx : GcpContext) (c : Context)
    (hc : env.DefaultContext = .ok ctx) :
    (∃ e, gcpCheckExcludedRegions ctx (c.StringSlice "exclude-region") = some e
      ∧ gcpNuke env c = ⟨[.GcpDefaultContext, .Info ("Using project: " ++ ctx.Project)],
          some e⟩)
    ∨ (∃ e, gcpCheckExcludedRegions ctx (c.StringSlice "exclude-region") = none
      ∧ parseDurationParam env.sys (c.String "older-than") = .error e
      ∧ gcpNuke env c = ⟨[.GcpDefaultContext, .Info ("Using project: " ++ ctx.Project)],
          some (WithStackTrace e)⟩)
    ∨ (∃ cutoff e,
      gcpCheckExcludedRegions ctx (c.StringSlice "exclude-region") = none
      ∧ parseDurationParam env.sys (c.String "older-than") = .ok cutoff
      ∧ ctx.GetAllResources (c.StringSlice "exclude-region") cutoff = .error e
      ∧ gcpNuke env c = ⟨[.GcpDefaultContext, .Info ("Using project: " ++ ctx.Project),
          .Info "Retrieving all active GCP resources",
          .GcpGetAllResources (c.StringSlice "exclude-region") cutoff],
          some (WithStackTrace (.External e))⟩)
    ∨ (∃ cutoff resources,
      gcpCheckExcludedRegions ctx (c.StringSlice "exclude-region") = none
      ∧ parseDurationParam env.sys (c.String "older-than") = .ok cutoff
      ∧ ctx.GetAllResources (c.StringSlice "exclude-region") cutoff = .ok resources
      ∧ resources.length = 0
      ∧ gcpNuke env c = ⟨[.GcpDefaultContext, .Info ("Using project: " ++ ctx.Project),
          .Info "Retrieving all active GCP resources",
          .GcpGetAllResources (c.StringSlice "exclude-region") cutoff,
          .Info "Nothing to nuke, you're all good!"], none⟩)
    ∨ (∃ cutoff resources e,
      gcpCheckExcludedRegions ctx (c.StringSlice "exclude-region") = none
      ∧ parseDurationParam env.sys (c.String "older-than") = .ok cutoff
      ∧ ctx.GetAllResources (c.StringSlice "exclude-region") cutoff = .ok resources
      ∧ resources.length ≠ 0
      ∧ (promptForConfirmationBeforeNuking env.sys (c.Bool "force")).2 = .error e
      ∧ gcpNuke env c = ⟨gcpPrefix ctx c cutoff resources
          ++ (promptForConfirmationBeforeNuking env.sys (c.Bool "force")).1, some e⟩)
    ∨ (∃ cutoff resources,
      gcpCheckExcludedRegions ctx (c.StringSlice "exclude-region") = none
      ∧ parseDurationParam env.sys (c.String "older-than") = .ok cutoff
      ∧ ctx.GetAllResources (c.StringSlice "exclude-region") cutoff = .ok resources
      ∧ resources.length ≠ 0
      ∧ (promptForConfirmationBeforeNuking env.sys (c.Bool "force")).2 = .ok false
      ∧ gcpNuke env c = ⟨gcpPrefix ctx c cutoff resources
          ++ (promptForConfirmationBeforeNuking env.sys (c.Bool "force")).1, none⟩)
    ∨ (∃ cutoff resources,
      gcpCheckExcludedRegions ctx (c.StringSlice "exclude-region") = none
      ∧ parseDurationParam env.sys (c.String "older-than") = .ok cutoff
      ∧ ctx.GetAllResources (c.StringSlice "exclude-region") cutoff = .ok resources
      ∧ resources.length ≠ 0
      ∧ (promptForConfirmationBeforeNuking env.sys (c.Bool "force")).2 = .ok true
      ∧ (ctx.NukeAllResources resources).length ≠ 0
      ∧ gcpNuke env c = ⟨gcpPrefix ctx c cutoff resources
          ++ (promptForConfirmationBeforeNuking env.sys (c.Bool "force")).1
          ++ [.GcpNukeAllResources resources]
          ++ (ctx.NukeAllResources resources).map
            (fun err => .Errorf (WithStackTrace (.External err))),
          some (.New "Some resources failed to nuke.")⟩)
    ∨ (∃ cutoff resources,
      gcpCheckExcludedRegions ctx (c.StringSlice "exclude-region") = none
      ∧ parseDurationParam env.sys (c.String "older-than") = .ok cutoff
      ∧ ctx.GetAllResources (c.StringSlice "exclude-region") cutoff = .ok resources
      ∧ resources.length ≠ 0
      ∧ (promptForConfirmationBeforeNuking env.sys (c.Bool "force")).2 = .ok true
      ∧ (ctx.NukeAllResources resources).length = 0
      ∧ gcpNuke env c = ⟨gcpPrefix ctx c cutoff resources
          ++ (promptForConfirmationBeforeNuking env.sys (c.Bool "force")).1
          ++ [.GcpNukeAllResources resources], none⟩) := by
  rcases h : gcpCheckExcludedRegions ctx (c.StringSlice "exclude-region") with _ | e
  swap
  · exact Or.inl ⟨e, rfl, gcpNuke_invalid env ctx c e hc h⟩
  rcases hp : parseDurationParam env.sys (c.String "older-than") with e | cutoff
  · exact Or.inr (Or.inl ⟨e, rfl, rfl, gcpNuke_parse_error env ctx c e hc h hp⟩)
  rcases hl : ctx.GetAllResources (c.StringSlice "exclude-region") cutoff with e | resources
  · exact Or.inr (Or.inr (Or.inl
      ⟨cutoff, e, rfl, rfl, hl, gcpNuke_list_error env ctx c cutoff e hc h hp hl⟩))
  by_cases hz : resources.length = 0
  · exact Or.inr (Or.inr (Or.inr (Or.inl
      ⟨cutoff, resources, rfl, rfl, hl, hz, gcpNuke_empty env ctx c cutoff resources hc h hp hl hz⟩)))
  rcases gate_result_cases env.sys (c.Bool "force") with ⟨e, hg⟩ | hg | hg
  · exact Or.inr (Or.inr (Or.inr (Or.inr (Or.inl
      ⟨cutoff, resources, e, rfl, rfl, hl, hz, hg,
        gcpNuke_gate_error env ctx c cutoff resources e hc h hp hl hz hg⟩))))
  · exact Or.inr (Or.inr (Or.inr (Or.inr (Or.inr (Or.inl
      ⟨cutoff, resources, rfl, rfl, hl, hz, hg,
        gcpNuke_declined env ctx c cutoff resources hc h hp hl hz hg⟩)))))
  by_cases hf : (ctx.NukeAllResources resources).length = 0
  · exact Or.inr (Or.inr (Or.inr (Or.inr (Or.inr (Or.inr (Or.inr
      ⟨cutoff, resources, rfl, rfl, hl, hz, hg, hf,
        gcpNuke_confirmed_clean env ctx c cutoff resources hc h hp hl hz hg hf⟩))))))
  · exact Or.inr (Or.inr (Or.inr (Or.inr (Or.inr (Or.inr (Or.inl
      ⟨cutoff, resources, rfl, rfl, hl, hz, hg, hf,
        gcpNuke_confirmed_failures env ctx c cutoff resources hc h hp hl hz hg hf⟩))))))

/-! ## Shapes of the errors -/

theorem WithStackTrace_not_flag (e : GoError) :
    (WithStackTrace e).isInvalidFlagError = false := by
  cases e with
  | External x => cases ht : x.traced <;> simp [WithStackTrace, ht, GoError.isInvalidFlagError]
  | _ => rfl

/-- The only error of the gate is the read failure of the prompt, with a stack trace. -/
theorem gate_error_form (sys : Sys) (force : Bool) (e : GoError)
    (h : (promptForConfirmationBeforeNuking sys force).2 = .error e) :
    force = false ∧ ∃ x, sys.PromptUserForInput confirmPrompt = .error x
      ∧ e = WithStackTrace (.External x) := by
  cases force with
  | true => simp [promptForConfirmationBeforeNuking] at h
  | false =>
    simp only [promptForConfirmationBeforeNuking] at h
    rcases hq : sys.PromptUserForInput confirmPrompt with x | input
    · rw [hq] at h
      simp only [Bool.false_eq_true, if_false, Except.error.injEq] at h
      exact ⟨rfl, x, rfl, h.symm⟩
    · rw [hq] at h
      simp at h

/-! ## Validated exclusion lists -/

theorem awsCheckExcludedRegions_valid (regions l : List String)
    (h : awsCheckExcludedRegions regions l = none) : ∀ r ∈ l, r ∈ regions := by
  intro r hr
  by_contra hn
  obtain ⟨v, hv⟩ := awsCheckExcludedRegions_invalid regions l ⟨r, hr, hn⟩
  rw [h] at hv
  cases hv

theorem gcpCheckExcludedRegions_valid (ctx : GcpContext) (l : List String)
    (h : gcpCheckExcludedRegions ctx l = none) : ∀ r ∈ l, ctx.ContainsRegion r = true := by
  intro r hr
  by_contra hn
  obtain ⟨v, hv⟩ := gcpCheckExcludedRegions_invalid ctx l ⟨r, hr, by simpa using hn⟩
  rw [h] at hv
  cases hv

/-! ## The confirmation gate -/

/-- A call of `NukeAllResources` in `awsNuke` means the gate returned `true`. -/
theorem awsNuke_nuke_needs_true (env : AwsEnv) (c : Context)
    (h : (awsNuke env c).trace.countP Event.isNuke ≠ 0) :
    (promptForConfirmationBeforeNuking env.sys (c.Bool "force")).2 = .ok true := by
  rcases awsNuke_cases env c with ⟨x, _, hr⟩ | ⟨x, _, _, hr⟩ | ⟨_, x, _, _, _, hr⟩
    | ⟨_, _, _, _, _, _, hr⟩ | ⟨_, _, x, _, _, _, _, hg, hr⟩ | ⟨_, _, _, _, _, _, hg, hr⟩
    | ⟨_, account, _, _, _, _, hg, hr⟩
  all_goals rw [hr] at h
  all_goals first
    | exact hg
    | (exfalso; apply h;
       simp [Event.isNuke, List.countP_append, countP_isNuke_awsPrefix, countP_isNuke_gate])

/-- A call of `NukeAllResources` in `gcpNuke` means the gate returned `true`. -/
theorem gcpNuke_nuke_needs_true (env : GcpEnv) (c : Context)
    (h : (gcpNuke env c).trace.countP Event.isNuke ≠ 0) :
    (promptForConfirmationBeforeNuking env.sys (c.Bool "force")).2 = .ok true := by
  rcases hc : env.DefaultContext with x | ctx
  · rw [gcpNuke_context_error env c x hc] at h
    simp [Event.isNuke] at h
  rcases gcpNuke_cases env ctx c hc with ⟨x, _, hr⟩ | ⟨x, _, _, hr⟩ | ⟨_, x, _, _, _, hr⟩
    | ⟨_, _, _, _, _, _, hr⟩ | ⟨_, _, x, _, _, _, _, hg, hr⟩ | ⟨_, _, _, _, _, _, hg, hr⟩
    | ⟨_, _, _, _, _, _, hg, _, hr⟩ | ⟨_, _, _, _, _, _, hg, _, hr⟩
  all_goals rw [hr] at h
  all_goals first
    | exact hg
    | (exfalso; apply h;
       simp [Event.isNuke, List.countP_append, countP_isNuke_gcpPrefix, countP_isNuke_gate])

/-- With `force` unset and the prompt read, the gate returns the comparison of
the lower-cased input with `nuke`. -/
theorem gate_reads_input (sys : Sys) (input : String)
    (h : sys.PromptUserForInput confirmPrompt = .ok input) :
    (promptForConfirmationBeforeNuking sys false).2
      = .ok (ToLower sys.UnicodeToLower input == "nuke") := by
  simp [promptForConfirmationBeforeNuking, h]

theorem unicodeToLower_ascii (table : Char → Char) (r : Char) (h : r.toNat ≤ 0x7F) :
    unicodeToLower table r = unicodeToLower id r := by
  simp [unicodeToLower, h]

set_option maxRecDepth 100000 in
/-- Among the ASCII runes, only a letter of `nuke` and its capital lower to that letter. -/
theorem unicodeToLower_ascii_cases : ∀ n : Fin 128,
    (unicodeToLower id (Char.ofNat n) = 'n' → Char.ofNat n = 'n' ∨ Char.ofNat n = 'N')
    ∧ (unicodeToLower id (Char.ofNat n) = 'u' → Char.ofNat n = 'u' ∨ Char.ofNat n = 'U')
    ∧ (unicodeToLower id (Char.ofNat n) = 'k' → Char.ofNat n = 'k' ∨ Char.ofNat n = 'K')
    ∧ (unicodeToLower id (Char.ofNat n) = 'e' → Char.ofNat n = 'e' ∨ Char.ofNat n = 'E') := by
  decide

theorem unicodeToLower_ascii_letter (table : Char → Char) (r : Char) (h : r.toNat ≤ 0x7F) :
    (unicodeToLower table r = 'n' → r = 'n' ∨ r = 'N')
    ∧ (unicodeToLower table r = 'u' → r = 'u' ∨ r = 'U')
    ∧ (unicodeToLower table r = 'k' → r = 'k' ∨ r = 'K')
    ∧ (unicodeToLower table r = 'e' → r = 'e' ∨ r = 'E') := by
  rw [unicodeToLower_ascii table r h]
  have := unicodeToLower_ascii_cases ⟨r.toNat, by omega⟩
  simpa using this

/-- An ASCII string lowers to `nuke` exactly when it is one of the sixteen spellings. -/
theorem ToLower_eq_nuke_ascii (table : Char → Char) (s : String)
    (h : ∀ ch ∈ s.data, ch.toNat ≤ 0x7F) :
    ToLower table s = "nuke" ↔ s ∈ nukeSpellings := by
  constructor
  · intro hs
    obtain ⟨l⟩ := s
    have hmap : l.map (unicodeToLower table) = ['n', 'u', 'k', 'e'] := by
      have := congrArg String.data hs
      simpa [ToLower] using this
    rcases l with _ | ⟨a, _ | ⟨b, _ | ⟨c, _ | ⟨d, _ | ⟨e, l⟩⟩⟩⟩⟩ <;> simp at hmap
    obtain ⟨ha, hb, hc, hd⟩ := hmap
    have ha2 := (unicodeToLower_ascii_letter table a (h a (by simp))).1 ha
    have hb2 := (unicodeToLower_ascii_letter table b (h b (by simp))).2.1 hb
    have hc2 := (unicodeToLower_ascii_letter table c (h c (by simp))).2.2.1 hc
    have hd2 := (unicodeToLower_ascii_letter table d (h d (by simp))).2.2.2 hd
    rcases ha2 with rfl | rfl <;> rcases hb2 with rfl | rfl <;> rcases hc2 with rfl | rfl
      <;> rcases hd2 with rfl | rfl <;> decide
  · intro hs
    simp only [nukeSpellings, List.mem_cons, List.mem_singleton, List.not_mem_nil,
      or_false] at hs
    rcases hs with rfl | rfl | rfl | rfl | rfl | rfl | rfl | rfl | rfl | rfl | rfl | rfl
      | rfl | rfl | rfl | rfl <;> rfl

/-! ## The place of the deletion call in a trace -/

/-- A list with a single entry satisfying `p` splits at that entry in one way only. -/
theorem split_at_unique (p : Event → Bool) (l1 l2 : List Event) (x : Event) :
    ∀ (before after : List Event) (e : Event),
      l1 ++ x :: l2 = before ++ e :: after →
      (∀ y ∈ l1, p y = false) → (∀ y ∈ l2, p y = false) → p e = true →
        before = l1 ∧ e = x ∧ after = l2 := by
  induction l1 with
  | nil =>
    intro before after e h _ h2 he
    cases before with
    | nil =>
      simp only [List.nil_append, List.cons.injEq] at h
      exact ⟨rfl, h.1.symm, h.2.symm⟩
    | cons b rest =>
      simp only [List.nil_append, List.cons_append, List.cons.injEq] at h
      have hmem : e ∈ l2 := by rw [h.2]; simp
      rw [h2 e hmem] at he
      cases he
  | cons y l1 ih =>
    intro before after e h h1 h2 he
    cases before with
    | nil =>
      simp only [List.nil_append, List.cons_append, List.cons.injEq] at h
      have hy := h1 y (by simp)
      rw [h.1, he] at hy
      cases hy
    | cons b rest =>
      simp only [List.cons_append, List.cons.injEq] at h
      obtain ⟨h3, h4, h5⟩ := ih rest after e h.2 (fun z hz => h1 z (by simp [hz])) h2 he
      exact ⟨by rw [h.1, h3], h4, h5⟩

/-- A trace without a deletion call has no position holding one. -/
theorem no_nuke_position (l before after : List Event) (e : Event)
    (hl : ∀ y ∈ l, y.isNuke = false) (h : l = before ++ e :: after) (he : e.isNuke = true) :
    False := by
  have hmem : e ∈ l := by rw [h]; simp
  rw [hl e hmem] at he
  cases he

/-- In `awsNuke` a call of `aws.NukeAllResources` stands right after the steps
of the gate, which stand after steps that are neither the gate's nor a deletion,
and nothing follows it. -/
theorem awsNuke_nuke_position (env : AwsEnv) (c : Context) (before after : List Event)
    (e : Event) (h : (awsNuke env c).trace = before ++ e :: after) (he : e.isNuke = true) :
    (promptForConfirmationBeforeNuking env.sys (c.Bool "force")).2 = .ok true
    ∧ (∃ pre, before = pre ++ (promptForConfirmationBeforeNuking env.sys (c.Bool "force")).1
        ∧ ∀ x ∈ pre, x.isGate = false ∧ x.isNuke = false)
    ∧ after = [] := by
  rcases awsNuke_cases env c with ⟨x, _, hr⟩ | ⟨x, _, _, hr⟩ | ⟨_, x, _, _, _, hr⟩
    | ⟨_, _, _, _, _, _, hr⟩ | ⟨cutoff, account, x, _, _, _, _, hg, hr⟩
    | ⟨cutoff, account, _, _, _, _, hg, hr⟩ | ⟨cutoff, account, _, _, _, _, hg, hr⟩
  · rw [hr] at h
    exact (no_nuke_position _ before after e (by simp [Event.isNuke]) h he).elim
  · rw [hr] at h
    exact (no_nuke_position _ before after e (by simp [Event.isNuke]) h he).elim
  · rw [hr] at h
    exact (no_nuke_position _ before after e (by simp [Event.isNuke]) h he).elim
  · rw [hr] at h
    exact (no_nuke_position _ before after e (by simp [Event.isNuke]) h he).elim
  · rw [hr] at h
    refine (no_nuke_position _ before after e ?_ h he).elim
    intro y hy
    rcases List.mem_append.mp hy with hy | hy
    · exact (awsPrefix_events env c cutoff account y hy).1
    · exact (gate_trace_no_call _ _ y hy).2
  · rw [hr] at h
    refine (no_nuke_position _ before after e ?_ h he).elim
    intro y hy
    rcases List.mem_append.mp hy with hy | hy
    · exact (awsPrefix_events env c cutoff account y hy).1
    · exact (gate_trace_no_call _ _ y hy).2
  · rw [hr] at h
    have hsplit := split_at_unique Event.isNuke
      (awsPrefix env c cutoff account
        ++ (promptForConfirmationBeforeNuking env.sys (c.Bool "force")).1) []
      (.AwsNukeAllResources account env.GetAllRegions) before after e h
      (by
        intro y hy
        rcases List.mem_append.mp hy with hy | hy
        · exact (awsPrefix_events env c cutoff account y hy).1
        · exact (gate_trace_no_call _ _ y hy).2)
      (by simp) he
    refine ⟨hg, ⟨awsPrefix env c cutoff account, hsplit.1, ?_⟩, hsplit.2.2⟩
    intro y hy
    exact ⟨(awsPrefix_events env c cutoff account y hy).2.1,
      (awsPrefix_events env c cutoff account y hy).1⟩

/-- In `gcpNuke` a call of `ctx.NukeAllResources` stands right after the steps
of the gate, which stand after steps that are neither the gate's nor a deletion,
and only lines of the error log follow it. -/
theorem gcpNuke_nuke_position (env : GcpEnv) (c : Context) (before after : List Event)
    (e : Event) (h : (gcpNuke env c).trace = before ++ e :: after) (he : e.isNuke = true) :
    (promptForConfirmationBeforeNuking env.sys (c.Bool "force")).2 = .ok true
    ∧ (∃ pre, before = pre ++ (promptForConfirmationBeforeNuking env.sys (c.Bool "force")).1
        ∧ ∀ x ∈ pre, x.isGate = false ∧ x.isNuke = false)
    ∧ (∀ x ∈ after, x.isLog = true) := by
  rcases hc : env.DefaultContext with x | ctx
  · rw [gcpNuke_context_error env c x hc] at h
    exact (no_nuke_position _ before after e (by simp [Event.isNuke]) h he).elim
  rcases gcpNuke_cases env ctx c hc with ⟨x, _, hr⟩ | ⟨x, _, _, hr⟩ | ⟨_, x, _, _, _, hr⟩
    | ⟨_, _, _, _, _, _, hr⟩ | ⟨cutoff, resources, x, _, _, _, _, hg, hr⟩
    | ⟨cutoff, resources, _, _, _, _, hg, hr⟩
    | ⟨cutoff, resources, _, _, _, _, hg, _, hr⟩
    | ⟨cutoff, resources, _, _, _, _, hg, _, hr⟩
  · rw [hr] at h
    exact (no_nuke_position _ before after e (by simp [Event.isNuke]) h he).elim
  · rw [hr] at h
    exact (no_nuke_position _ before after e (by simp [Event.isNuke]) h he).elim
  · rw [hr] at h
    exact (no_nuke_position _ before after e (by simp [Event.isNuke]) h he).elim
  · rw [hr] at h
    exact (no_nuke_position _ before after e (by simp [Event.isNuke]) h he).elim
  · rw [hr] at h
    refine (no_nuke_position _ before after e ?_ h he).elim
    intro y hy
    rcases List.mem_append.mp hy with hy | hy
    · exact (gcpPrefix_events ctx c cutoff resources y hy).1
    · exact (gate_trace_no_call _ _ y hy).2
  · rw [hr] at h
    refine (no_nuke_position _ before after e ?_ h he).elim
    intro y hy
    rcases List.mem_append.mp hy with hy | hy
    · exact (gcpPrefix_events ctx c cutoff resources y hy).1
    · exact (gate_trace_no_call _ _ y hy).2
  · rw [hr] at h
    have hsplit := split_at_unique Event.isNuke
      (gcpPrefix ctx c cutoff resources
        ++ (promptForConfirmationBeforeNuking env.sys (c.Bool "force")).1)
      ((ctx.NukeAllResources resources).map
        (fun err => Event.Errorf (WithStackTrace (.External err))))
      (.GcpNukeAllResources resources) before after e (by simpa using h)
      (by
        intro y hy
        rcases List.mem_append.mp hy with hy | hy
        · exact (gcpPrefix_events ctx c cutoff resources y hy).1
        · exact (gate_trace_no_call _ _ y hy).2)
      (fun y hy => (isLog_not_call y (errorLines_isLog _ y hy)).2.1) he
    refine ⟨hg, ⟨gcpPrefix ctx c cutoff resources, hsplit.1, ?_⟩, ?_⟩
    · intro y hy
      exact ⟨(gcpPrefix_events ctx c cutoff resources y hy).2.1,
        (gcpPrefix_events ctx c cutoff resources y hy).1⟩
    · rw [hsplit.2.2]
      exact errorLines_isLog _
  · rw [hr] at h
    have hsplit := split_at_unique Event.isNuke
      (gcpPrefix ctx c cutoff resources
        ++ (promptForConfirmationBeforeNuking env.sys (c.Bool "force")).1) []
      (.GcpNukeAllResources resources) before after e h
      (by
        intro y hy
        rcases List.mem_append.mp hy with hy | hy
        · exact (gcpPrefix_events ctx c cutoff resources y hy).1
        · exact (gate_trace_no_call _ _ y hy).2)
      (by simp) he
    refine ⟨hg, ⟨gcpPrefix ctx c cutoff resources, hsplit.1, ?_⟩, ?_⟩
    · intro y hy
      exact ⟨(gcpPrefix_events ctx c cutoff resources y hy).2.1,
        (gcpPrefix_events ctx c cutoff resources y hy).1⟩
    · rw [hsplit.2.2]
      simp

/-! ## C1: an invalid exclusion stops the run before discovery -/

/-- C1: an exclusion list holding a region outside the provider's known
region set makes `awsNuke` and `gcpNuke` return an error, and the run holds no
call of `GetAllResources`, no step of the confirmation gate and no call of
`NukeAllResources`. -/
theorem C1_invalid_exclusion_stops_before_discovery :
    (∀ (env : AwsEnv) (c : Context),
      (∃ r ∈ c.StringSlice "exclude-region", r ∉ env.GetAllRegions) →
        (awsNuke env c).err ≠ none
        ∧ (awsNuke env c).trace.countP Event.isList = 0
        ∧ (awsNuke env c).trace.countP Event.isGate = 0
        ∧ (awsNuke env c).trace.countP Event.isNuke = 0)
    ∧ (∀ (env : GcpEnv) (ctx : GcpContext) (c : Context),
      env.DefaultContext = .ok ctx →
      (∃ r ∈ c.StringSlice "exclude-region", ctx.ContainsRegion r = false) →
        (gcpNuke env c).err ≠ none
        ∧ (gcpNuke env c).trace.countP Event.isList = 0
        ∧ (gcpNuke env c).trace.countP Event.isGate = 0
        ∧ (gcpNuke env c).trace.countP Event.isNuke = 0) := by
  constructor
  · intro env c h
    obtain ⟨v, hv⟩ := awsCheckExcludedRegions_invalid env.GetAllRegions _ h
    rw [awsNuke_invalid env c _ hv]
    simp [Event.isList, Event.isGate, Event.isNuke]
  · intro env ctx c hc h
    obtain ⟨v, hv⟩ := gcpCheckExcludedRegions_invalid ctx _ h
    rw [gcpNuke_invalid env ctx c _ hc hv]
    simp [Event.isList, Event.isGate, Event.isNuke]

/-- C1 at `--exclude-region us-east-1 --exclude-region mars-1 --force` (AWS) and
`--exclude-region mars-1` (GCP). -/
theorem C1_witness :
    ((∃ r ∈ (exampleContext ["us-east-1", "mars-1"] "0s" true).StringSlice "exclude-region",
        r ∉ (exampleAwsEnv (.ok "nuke") none).GetAllRegions)
      ∧ (awsNuke (exampleAwsEnv (.ok "nuke") none)
          (exampleContext ["us-east-1", "mars-1"] "0s" true)).trace.countP Event.isList = 0)
    ∧ ((∃ r ∈ (exampleContext ["mars-1"] "0s" false).StringSlice "exclude-region",
        (exampleGcpContext []).ContainsRegion r = false)
      ∧ (gcpNuke (exampleGcpEnv (.ok "nuke") [])
          (exampleContext ["mars-1"] "0s" false)).trace.countP Event.isList = 0) :=
  ⟨⟨⟨"mars-1", by decide, by decide⟩,
      (C1_invalid_exclusion_stops_before_discovery.1 _ _ ⟨"mars-1", by decide, by decide⟩).2.1⟩,
    ⟨⟨"mars-1", by decide, by decide⟩,
      (C1_invalid_exclusion_stops_before_discovery.2 (exampleGcpEnv (.ok "nuke") [])
        (exampleGcpContext []) _ rfl ⟨"mars-1", by decide, by decide⟩).2.1⟩⟩

/-! ## C2: the first invalid exclusion is the one reported -/

/-- C2: when the exclusion list has an invalid entry, `awsNuke` and `gcpNuke`
return an `InvalidFlagError` whose `Value` is the first entry, in list order,
that is not a valid region, and nothing else is reported in the run; when every
entry is valid the error returned, if any, is no `InvalidFlagError`. -/
theorem C2_first_invalid_exclusion_is_reported :
    (∀ (env : AwsEnv) (c : Context) (pre post : List String) (v : String),
      c.StringSlice "exclude-region" = pre ++ v :: post →
      (∀ r ∈ pre, r ∈ env.GetAllRegions) → v ∉ env.GetAllRegions →
        ∃ name, awsNuke env c = ⟨[.AwsGetAllRegions], some (.InvalidFlagError name v)⟩)
    ∧ (∀ (env : GcpEnv) (ctx : GcpContext) (c : Context) (pre post : List String) (v : String),
      env.DefaultContext = .ok ctx →
      c.StringSlice "exclude-region" = pre ++ v :: post →
      (∀ r ∈ pre, ctx.ContainsRegion r = true) → ctx.ContainsRegion v = false →
        ∃ name, gcpNuke env c
          = ⟨[.GcpDefaultContext, .Info ("Using project: " ++ ctx.Project)],
              some (.InvalidFlagError name v)⟩)
    ∧ (∀ (env : AwsEnv) (c : Context),
      (∀ r ∈ c.StringSlice "exclude-region", r ∈ env.GetAllRegions) →
        ∀ e, (awsNuke env c).err = some e → e.isInvalidFlagError = false)
    ∧ (∀ (env : GcpEnv) (c : Context),
      (∀ ctx, env.DefaultContext = .ok ctx →
        ∀ r ∈ c.StringSlice "exclude-region", ctx.ContainsRegion r = true) →
        ∀ e, (gcpNuke env c).err = some e → e.isInvalidFlagError = false) := by
  refine ⟨?_, ?_, ?_, ?_⟩
  · intro env c pre post v hl hpre hv
    refine ⟨"exclude-regions", awsNuke_invalid env c _ ?_⟩
    rw [hl]
    exact awsCheckExcludedRegions_first _ pre post v hpre hv
  · intro env ctx c pre post v hc hl hpre hv
    refine ⟨"exclude-region", gcpNuke_invalid env ctx c _ hc ?_⟩
    rw [hl]
    exact gcpCheckExcludedRegions_first ctx pre post v hpre hv
  · intro env c hvalid e he
    have hnone := awsCheckExcludedRegions_none env.GetAllRegions _ hvalid
    rcases awsNuke_cases env c with ⟨x, h, _⟩ | ⟨x, _, _, hr⟩ | ⟨_, x, _, _, _, hr⟩
      | ⟨_, _, _, _, _, _, hr⟩ | ⟨_, _, x, _, _, _, _, hg, hr⟩ | ⟨_, _, _, _, _, _, _, hr⟩
      | ⟨_, account, _, _, _, _, _, hr⟩
    · rw [hnone] at h; cases h
    · rw [hr] at he
      cases he
      exact WithStackTrace_not_flag x
    · rw [hr] at he
      cases he
      exact WithStackTrace_not_flag _
    · rw [hr] at he; cases he
    · rw [hr] at he
      cases he
      obtain ⟨_, y, _, rfl⟩ := gate_error_form _ _ _ hg
      exact WithStackTrace_not_flag _
    · rw [hr] at he; cases he
    · rw [hr] at he
      cases hn : env.NukeAllResources account env.GetAllRegions with
      | none => rw [hn] at he; cases he
      | some y => rw [hn] at he; cases he; rfl
  · intro env c hvalid e he
    rcases hc : env.DefaultContext with x | ctx
    · rw [gcpNuke_context_error env c x hc] at he
      cases he
      exact WithStackTrace_not_flag _
    have hnone := gcpCheckExcludedRegions_none ctx _ (hvalid ctx hc)
    rcases gcpNuke_cases env ctx c hc with ⟨x, h, _⟩ | ⟨x, _, _, hr⟩ | ⟨_, x, _, _, _, hr⟩
      | ⟨_, _, _, _, _, _, hr⟩ | ⟨_, _, x, _, _, _, _, hg, hr⟩ | ⟨_, _, _, _, _, _, _, hr⟩
      | ⟨_, _, _, _, _, _, _, _, hr⟩ | ⟨_, _, _, _, _, _, _, _, hr⟩
    · rw [hnone] at h; cases h
    · rw [hr] at he
      cases he
      exact WithStackTrace_not_flag x
    · rw [hr] at he
      cases he
      exact WithStackTrace_not_flag _
    · rw [hr] at he; cases he
    · rw [hr] at he
      cases he
      obtain ⟨_, y, _, rfl⟩ := gate_error_form _ _ _ hg
      exact WithStackTrace_not_flag _
    · rw [hr] at he; cases he
    · rw [hr] at he
      cases he
      rfl
    · rw [hr] at he; cases he

/-- C2 at `--exclude-region us-east-1 --exclude-region mars-1 --exclude-region venus-2`
(the value reported is `mars-1`) and at exclusion lists with valid entries only. -/
theorem C2_witness :
    (∃ name, awsNuke (exampleAwsEnv (.ok "nuke") none)
        (exampleContext ["us-east-1", "mars-1", "venus-2"] "0s" false)
      = ⟨[.AwsGetAllRegions], some (.InvalidFlagError name "mars-1")⟩)
    ∧ (∃ name, gcpNuke (exampleGcpEnv (.ok "nuke") [])
        (exampleContext ["us-central1", "mars-1", "venus-2"] "0s" false)
      = ⟨[.GcpDefaultContext, .Info ("Using project: " ++ (exampleGcpContext []).Project)],
          some (.InvalidFlagError name "mars-1")⟩)
    ∧ (∀ e, (awsNuke (exampleAwsEnv (.ok "nuke") (some ⟨"boom", false⟩))
        (exampleContext ["us-east-1"] "0s" false)).err = some e → e.isInvalidFlagError = false)
    ∧ (∀ e, (gcpNuke (exampleGcpEnv (.ok "nuke") [⟨"boom", false⟩])
        (exampleContext ["europe-west1"] "0s" false)).err = some e →
          e.isInvalidFlagError = false) :=
  ⟨C2_first_invalid_exclusion_is_reported.1 _ _ ["us-east-1"] ["venus-2"] "mars-1" rfl
      (by decide) (by decide),
    C2_first_invalid_exclusion_is_reported.2.1 (exampleGcpEnv (.ok "nuke") [])
      (exampleGcpContext []) _ ["us-central1"] ["venus-2"] "mars-1" rfl rfl
      (by decide) (by decide),
    C2_first_invalid_exclusion_is_reported.2.2.1 _ _ (by decide),
    C2_first_invalid_exclusion_is_reported.2.2.2 _ _ (by
      intro ctx h
      simp only [exampleGcpEnv, Except.ok.injEq] at h
      subst h
      decide)⟩

/-! ## C3: what the prompt accepts -/

/-- C3, as the claim states it, fails: with `force` unset and the prompt read,
the input `NUKE`, which is not the literal `nuke`, makes the gate return `true`,
and the run goes on to call `aws.NukeAllResources`. -/
theorem C3_counterexample :
    (exampleSys (.ok "NUKE")).PromptUserForInput confirmPrompt = .ok "NUKE"
    ∧ "NUKE" ≠ "nuke"
    ∧ (promptForConfirmationBeforeNuking (exampleSys (.ok "NUKE")) false).2 = .ok true
    ∧ (awsNuke (exampleAwsEnv (.ok "NUKE") none)
        (exampleContext [] "0s" false)).trace.countP Event.isNuke = 1 :=
  ⟨rfl, by decide, rfl, by decide⟩

/-- C3, amended: with `force` unset and the prompt read, the gate returns `true`
exactly when the input lower-cased by `strings.ToLower` is `nuke` and `false`
exactly when it is not; the literal `nuke` is accepted whatever the case table;
an ASCII input is accepted exactly when it is one of the sixteen upper- and
lower-case spellings of `nuke`; and an input whose lower-casing is not `nuke`
leaves the run of `awsNuke` and of `gcpNuke` without any call of
`NukeAllResources`. -/
theorem C3_confirmation_compares_lowercased_input :
    (∀ (sys : Sys) (input : String), sys.PromptUserForInput confirmPrompt = .ok input →
      ((promptForConfirmationBeforeNuking sys false).2 = .ok true
        ↔ ToLower sys.UnicodeToLower input = "nuke")
      ∧ ((promptForConfirmationBeforeNuking sys false).2 = .ok false
        ↔ ToLower sys.UnicodeToLower input ≠ "nuke"))
    ∧ (∀ table : Char → Char, ToLower table "nuke" = "nuke")
    ∧ (∀ (sys : Sys) (input : String), sys.PromptUserForInput confirmPrompt = .ok input →
      (∀ ch ∈ input.data, ch.toNat ≤ 0x7F) →
        ((promptForConfirmationBeforeNuking sys false).2 = .ok true ↔ input ∈ nukeSpellings))
    ∧ (∀ (env : AwsEnv) (c : Context) (input : String), c.Bool "force" = false →
      env.sys.PromptUserForInput confirmPrompt = .ok input →
      ToLower env.sys.UnicodeToLower input ≠ "nuke" →
        (awsNuke env c).trace.countP Event.isNuke = 0)
    ∧ (∀ (env : GcpEnv) (c : Context) (input : String), c.Bool "force" = false →
      env.sys.PromptUserForInput confirmPrompt = .ok input →
      ToLower env.sys.UnicodeToLower input ≠ "nuke" →
        (gcpNuke env c).trace.countP Event.isNuke = 0) := by
  refine ⟨?_, ?_, ?_, ?_, ?_⟩
  · intro sys input h
    rw [gate_reads_input sys input h]
    by_cases hq : ToLower sys.UnicodeToLower input = "nuke" <;> simp [hq]
  · intro table
    rfl
  · intro sys input h hascii
    rw [gate_reads_input sys input h, ← ToLower_eq_nuke_ascii sys.UnicodeToLower input hascii]
    simp
  · intro env c input hf h hne
    by_contra hcount
    have ht := awsNuke_nuke_needs_true env c hcount
    rw [hf, gate_reads_input env.sys input h] at ht
    simp [hne] at ht
  · intro env c input hf h hne
    by_contra hcount
    have ht := gcpNuke_nuke_needs_true env c hcount
    rw [hf, gate_reads_input env.sys input h] at ht
    simp [hne] at ht

/-- C3, amended, at the answers `Nuke` (accepted, one of the sixteen spellings)
and `yes` (refused, no deletion). -/
theorem C3_witness :
    ((promptForConfirmationBeforeNuking (exampleSys (.ok "Nuke")) false).2 = .ok true)
    ∧ ((promptForConfirmationBeforeNuking (exampleSys (.ok "yes")) false).2 = .ok false)
    ∧ ((promptForConfirmationBeforeNuking (exampleSys (.ok "nUKe")) false).2 = .ok true)
    ∧ (awsNuke (exampleAwsEnv (.ok "yes") none)
        (exampleContext [] "0s" false)).trace.countP Event.isNuke = 0
    ∧ (gcpNuke (exampleGcpEnv (.ok "yes") [])
        (exampleContext [] "0s" false)).trace.countP Event.isNuke = 0 :=
  ⟨((C3_confirmation_compares_lowercased_input.1 (exampleSys (.ok "Nuke")) "Nuke" rfl).1).mpr
      (by decide),
    ((C3_confirmation_compares_lowercased_input.1 (exampleSys (.ok "yes")) "yes" rfl).2).mpr
      (by decide),
    (C3_confirmation_compares_lowercased_input.2.2.1 (exampleSys (.ok "nUKe")) "nUKe" rfl
      (by decide)).mpr (by decide),
    C3_confirmation_compares_lowercased_input.2.2.2.1 (exampleAwsEnv (.ok "yes") none)
      (exampleContext [] "0s" false) "yes" rfl rfl (by decide),
    C3_confirmation_compares_lowercased_input.2.2.2.2 (exampleGcpEnv (.ok "yes") [])
      (exampleContext [] "0s" false) "yes" rfl rfl (by decide)⟩

/-! ## C4: what a run returns when deletions fail -/

/-- C4, as the claim states it, fails for `gcpNuke`: two confirmed runs whose
deletion steps report different failures return one and the same error value,
the text `Some resources failed to nuke.`, so the error lists none of them. -/
theorem C4_counterexample :
    (exampleGcpContext [⟨"vm-1: permission denied", false⟩]).NukeAllResources
        [⟨"instance", "vm-1", "us-central1", "us-central1-a"⟩]
      ≠ (exampleGcpContext [⟨"vm-1: not found", false⟩, ⟨"quota exceeded", false⟩]).NukeAllResources
        [⟨"instance", "vm-1", "us-central1", "us-central1-a"⟩]
    ∧ (gcpNuke (exampleGcpEnv (.ok "nuke") [⟨"vm-1: permission denied", false⟩])
        (exampleContext [] "0s" false)).err = some (.New "Some resources failed to nuke.")
    ∧ (gcpNuke (exampleGcpEnv (.ok "nuke")
          [⟨"vm-1: not found", false⟩, ⟨"quota exceeded", false⟩])
        (exampleContext [] "0s" false)).err = some (.New "Some resources failed to nuke.") :=
  ⟨by decide, by decide, by decide⟩

/-- C4, amended: in a confirmed run, `awsNuke` returns exactly what
`aws.NukeAllResources` returned (that error, or nil when it returned nil);
`gcpNuke`, when `ctx.NukeAllResources` reports failures, ends its run by
writing every one of them to the error log, in order, and returns the fixed
error `Some resources failed to nuke.`, and returns nil when no failure is
reported. -/
theorem C4_deletion_failures_fail_the_run :
    (∀ (env : AwsEnv) (c : Context) (cutoff : Time) (account : AwsAccountResources),
      (∀ r ∈ c.StringSlice "exclude-region", r ∈ env.GetAllRegions) →
      parseDurationParam env.sys (c.String "older-than") = .ok cutoff →
      env.GetAllResources env.GetAllRegions (c.StringSlice "exclude-region") cutoff
        = .ok account →
      account.Resources.length ≠ 0 →
      (promptForConfirmationBeforeNuking env.sys (c.Bool "force")).2 = .ok true →
        (awsNuke env c).err = (env.NukeAllResources account env.GetAllRegions).map .External)
    ∧ (∀ (env : GcpEnv) (ctx : GcpContext) (c : Context) (cutoff : Time)
        (resources : List GcpResource),
      env.DefaultContext = .ok ctx →
      (∀ r ∈ c.StringSlice "exclude-region", ctx.ContainsRegion r = true) →
      parseDurationParam env.sys (c.String "older-than") = .ok cutoff →
      ctx.GetAllResources (c.StringSlice "exclude-region") cutoff = .ok resources →
      resources.length ≠ 0 →
      (promptForConfirmationBeforeNuking env.sys (c.Bool "force")).2 = .ok true →
        (ctx.NukeAllResources resources ≠ [] →
          (gcpNuke env c).err = some (.New "Some resources failed to nuke.")
          ∧ ∃ before, (gcpNuke env c).trace = before ++ (ctx.NukeAllResources resources).map
              (fun err => Event.Errorf (WithStackTrace (.External err))))
        ∧ (ctx.NukeAllResources resources = [] → (gcpNuke env c).err = none)) := by
  constructor
  · intro env c cutoff account hvalid hp hl hz hg
    rw [awsNuke_confirmed env c cutoff account
      (awsCheckExcludedRegions_none _ _ hvalid) hp hl hz hg]
  · intro env ctx c cutoff resources hc hvalid hp hl hz hg
    have hv := gcpCheckExcludedRegions_none _ _ hvalid
    constructor
    · intro hf
      have hf2 : (ctx.NukeAllResources resources).length ≠ 0 := by
        simpa [List.length_eq_zero] using hf
      rw [gcpNuke_confirmed_failures env ctx c cutoff resources hc hv hp hl hz hg hf2]
      exact ⟨rfl, _, rfl⟩
    · intro hf
      have hf2 : (ctx.NukeAllResources resources).length = 0 := by
        simp [hf]
      rw [gcpNuke_confirmed_clean env ctx c cutoff resources hc hv hp hl hz hg hf2]

/-- C4, amended, at a confirmed AWS run whose deletion step fails, a confirmed
GCP run with two failures and a confirmed GCP run with none. -/
theorem C4_witness :
    (awsNuke (exampleAwsEnv (.ok "nuke") (some ⟨"i-0abc: access denied", false⟩))
        (exampleContext [] "0s" false)).err
      = some (.External ⟨"i-0abc: access denied", false⟩)
    ∧ (gcpNuke (exampleGcpEnv (.ok "nuke")
          [⟨"vm-1: not found", false⟩, ⟨"quota exceeded", false⟩])
        (exampleContext [] "0s" false)).err = some (.New "Some resources failed to nuke.")
    ∧ (gcpNuke (exampleGcpEnv (.ok "nuke") []) (exampleContext [] "0s" false)).err = none :=
  ⟨C4_deletion_failures_fail_the_run.1
      (exampleAwsEnv (.ok "nuke") (some ⟨"i-0abc: access denied", false⟩))
      (exampleContext [] "0s" false) (exampleNow + wrapInt64 (-1 * 0))
      ⟨[("us-east-1", ⟨[⟨"ec2", ["i-0abc"]⟩]⟩), ("us-west-2", ⟨[⟨"ec2", ["i-0abc"]⟩]⟩),
        ("eu-west-1", ⟨[⟨"ec2", ["i-0abc"]⟩]⟩)]⟩
      (by intro r hr; simp [exampleContext] at hr) rfl rfl (by decide) rfl,
    ((C4_deletion_failures_fail_the_run.2
      (exampleGcpEnv (.ok "nuke") [⟨"vm-1: not found", false⟩, ⟨"quota exceeded", false⟩])
      (exampleGcpContext [⟨"vm-1: not found", false⟩, ⟨"quota exceeded", false⟩])
      (exampleContext [] "0s" false) (exampleNow + wrapInt64 (-1 * 0))
      [⟨"instance", "vm-1", "us-central1", "us-central1-a"⟩] rfl
      (by intro r hr; simp [exampleContext] at hr) rfl rfl (by decide) rfl).1
      (by decide)).1,
    (C4_deletion_failures_fail_the_run.2 (exampleGcpEnv (.ok "nuke") [])
      (exampleGcpContext []) (exampleContext [] "0s" false) (exampleNow + wrapInt64 (-1 * 0))
      [⟨"instance", "vm-1", "us-central1", "us-central1-a"⟩] rfl
      (by intro r hr; simp [exampleContext] at hr) rfl rfl (by decide) rfl).2 rfl⟩

/-! ## C5: deletion only behind a confirmed gate -/

/-- C5: in every run of `awsNuke` and of `gcpNuke`, a call of
`NukeAllResources` occurs only after the confirmation gate returned `true`
without error: wherever the call stands in the trace, the gate returned `true`,
the steps before the call end with the steps of the gate in full (before which
no step of the gate and no deletion occurs), and no step of the gate and no
deletion follows the call; when the gate was entered and returned `false` there
is no such call and the run returns nil; when the gate was entered and failed
to read the input there is no such call and the run returns the gate's error. -/
theorem C5_deletion_only_after_confirmation :
    (∀ (env : AwsEnv) (c : Context),
      (∀ (before after : List Event) (e : Event),
        (awsNuke env c).trace = before ++ e :: after → e.isNuke = true →
          (promptForConfirmationBeforeNuking env.sys (c.Bool "force")).2 = .ok true
          ∧ (∃ pre,
            before = pre ++ (promptForConfirmationBeforeNuking env.sys (c.Bool "force")).1
            ∧ ∀ x ∈ pre, x.isGate = false ∧ x.isNuke = false)
          ∧ (∀ x ∈ after, x.isGate = false ∧ x.isNuke = false))
      ∧ ((awsNuke env c).trace.countP Event.isNuke ≠ 0 →
        Event.Confirmation (c.Bool "force") ∈ (awsNuke env c).trace
        ∧ (promptForConfirmationBeforeNuking env.sys (c.Bool "force")).2 = .ok true)
      ∧ (Event.Confirmation (c.Bool "force") ∈ (awsNuke env c).trace →
        (promptForConfirmationBeforeNuking env.sys (c.Bool "force")).2 = .ok false →
          (awsNuke env c).trace.countP Event.isNuke = 0 ∧ (awsNuke env c).err = none)
      ∧ (∀ e, Event.Confirmation (c.Bool "force") ∈ (awsNuke env c).trace →
        (promptForConfirmationBeforeNuking env.sys (c.Bool "force")).2 = .error e →
          (awsNuke env c).trace.countP Event.isNuke = 0 ∧ (awsNuke env c).err = some e))
    ∧ (∀ (env : GcpEnv) (c : Context),
      (∀ (before after : List Event) (e : Event),
        (gcpNuke env c).trace = before ++ e :: after → e.isNuke = true →
          (promptForConfirmationBeforeNuking env.sys (c.Bool "force")).2 = .ok true
          ∧ (∃ pre,
            before = pre ++ (promptForConfirmationBeforeNuking env.sys (c.Bool "force")).1
            ∧ ∀ x ∈ pre, x.isGate = false ∧ x.isNuke = false)
          ∧ (∀ x ∈ after, x.isGate = false ∧ x.isNuke = false))
      ∧ ((gcpNuke env c).trace.countP Event.isNuke ≠ 0 →
        Event.Confirmation (c.Bool "force") ∈ (gcpNuke env c).trace
        ∧ (promptForConfirmationBeforeNuking env.sys (c.Bool "force")).2 = .ok true)
      ∧ (Event.Confirmation (c.Bool "force") ∈ (gcpNuke env c).trace →
        (promptForConfirmationBeforeNuking env.sys (c.Bool "force")).2 = .ok false →
          (gcpNuke env c).trace.countP Event.isNuke = 0 ∧ (gcpNuke env c).err = none)
      ∧ (∀ e, Event.Confirmation (c.Bool "force") ∈ (gcpNuke env c).trace →
        (promptForConfirmationBeforeNuking env.sys (c.Bool "force")).2 = .error e →
          (gcpNuke env c).trace.countP Event.isNuke = 0 ∧ (gcpNuke env c).err = some e)) := by
  constructor
  · intro env c
    refine ⟨?_, ?_⟩
    · intro before after e h he
      obtain ⟨h1, h2, h3⟩ := awsNuke_nuke_position env c before after e h he
      refine ⟨h1, h2, ?_⟩
      rw [h3]
      simp
    rcases awsNuke_cases env c with ⟨x, _, hr⟩ | ⟨x, _, _, hr⟩ | ⟨_, x, _, _, _, hr⟩
      | ⟨_, _, _, _, _, _, hr⟩ | ⟨_, _, x, _, _, _, _, hg, hr⟩ | ⟨_, _, _, _, _, _, hg, hr⟩
      | ⟨_, account, _, _, _, _, hg, hr⟩
    · rw [hr]; simp [Event.isNuke]
    · rw [hr]; simp [Event.isNuke]
    · rw [hr]; simp [Event.isNuke]
    · rw [hr]; simp [Event.isNuke]
    · rw [hr]
      simp [hg, List.countP_append, countP_isNuke_awsPrefix, countP_isNuke_gate]
    · rw [hr]
      simp [hg, List.countP_append, countP_isNuke_awsPrefix, countP_isNuke_gate]
    · rw [hr]
      simp [hg, gate_trace_entry]
  · intro env c
    refine ⟨?_, ?_⟩
    · intro before after e h he
      obtain ⟨h1, h2, h3⟩ := gcpNuke_nuke_position env c before after e h he
      refine ⟨h1, h2, ?_⟩
      intro x hx
      have hlog := isLog_not_call x (h3 x hx)
      exact ⟨hlog.2.2, hlog.2.1⟩
    rcases hc : env.DefaultContext with x | ctx
    · rw [gcpNuke_context_error env c x hc]; simp [Event.isNuke]
    rcases gcpNuke_cases env ctx c hc with ⟨x, _, hr⟩ | ⟨x, _, _, hr⟩ | ⟨_, x, _, _, _, hr⟩
      | ⟨_, _, _, _, _, _, hr⟩ | ⟨_, _, x, _, _, _, _, hg, hr⟩ | ⟨_, _, _, _, _, _, hg, hr⟩
      | ⟨_, _, _, _, _, _, hg, _, hr⟩ | ⟨_, _, _, _, _, _, hg, _, hr⟩
    · rw [hr]; simp [Event.isNuke]
    · rw [hr]; simp [Event.isNuke]
    · rw [hr]; simp [Event.isNuke]
    · rw [hr]; simp [Event.isNuke]
    · rw [hr]
      simp [hg, List.countP_append, countP_isNuke_gcpPrefix, countP_isNuke_gate]
    · rw [hr]
      simp [hg, List.countP_append, countP_isNuke_gcpPrefix, countP_isNuke_gate]
    · rw [hr]
      simp [hg, gate_trace_entry]
    · rw [hr]
      simp [hg, gate_trace_entry]

set_option maxRecDepth 100000 in
/-- C5 at a run with `--force` and at runs whose user answers `nuke`, answers
`no`, and whose prompt cannot be read: in the forced and the confirmed runs the
steps before the deletion call end with the steps of the gate, countdown
included. -/
theorem C5_witness :
    (∃ pre, (awsNuke (exampleAwsEnv (.ok "") none)
        (exampleContext ["us-east-1", "us-west-2"] "0s" true)).trace.dropLast
      = pre ++ (promptForConfirmationBeforeNuking (exampleSys (.ok "")) true).1
      ∧ ∀ x ∈ pre, x.isGate = false ∧ x.isNuke = false)
    ∧ (∃ pre, (awsNuke (exampleAwsEnv (.ok "nuke") none)
        (exampleContext [] "0s" false)).trace.dropLast
      = pre ++ (promptForConfirmationBeforeNuking (exampleSys (.ok "nuke")) false).1
      ∧ ∀ x ∈ pre, x.isGate = false ∧ x.isNuke = false)
    ∧ (∃ pre, (gcpNuke (exampleGcpEnv (.ok "nuke") [])
        (exampleContext [] "0s" false)).trace.dropLast
      = pre ++ (promptForConfirmationBeforeNuking (exampleSys (.ok "nuke")) false).1
      ∧ ∀ x ∈ pre, x.isGate = false ∧ x.isNuke = false)
    ∧ (Event.Confirmation false ∈ (awsNuke (exampleAwsEnv (.ok "nuke") none)
        (exampleContext [] "0s" false)).trace
      ∧ (promptForConfirmationBeforeNuking (exampleSys (.ok "nuke")) false).2 = .ok true)
    ∧ ((awsNuke (exampleAwsEnv (.ok "no") none)
        (exampleContext [] "0s" false)).trace.countP Event.isNuke = 0
      ∧ (awsNuke (exampleAwsEnv (.ok "no") none) (exampleContext [] "0s" false)).err = none)
    ∧ ((awsNuke (exampleAwsEnv (.error ⟨"EOF", false⟩) none)
        (exampleContext [] "0s" false)).trace.countP Event.isNuke = 0
      ∧ (awsNuke (exampleAwsEnv (.error ⟨"EOF", false⟩) none)
        (exampleContext [] "0s" false)).err = some (.Wrapped (.External ⟨"EOF", false⟩)))
    ∧ (Event.Confirmation false ∈ (gcpNuke (exampleGcpEnv (.ok "nuke") [])
        (exampleContext [] "0s" false)).trace
      ∧ (promptForConfirmationBeforeNuking (exampleSys (.ok "nuke")) false).2 = .ok true)
    ∧ ((gcpNuke (exampleGcpEnv (.ok "no") [])
        (exampleContext [] "0s" false)).trace.countP Event.isNuke = 0
      ∧ (gcpNuke (exampleGcpEnv (.ok "no") []) (exampleContext [] "0s" false)).err = none)
    ∧ ((gcpNuke (exampleGcpEnv (.error ⟨"EOF", false⟩) [])
        (exampleContext [] "0s" false)).trace.countP Event.isNuke = 0
      ∧ (gcpNuke (exampleGcpEnv (.error ⟨"EOF", false⟩) []) (exampleContext [] "0s" false)).err
        = some (.Wrapped (.External ⟨"EOF", false⟩))) :=
  ⟨((C5_deletion_only_after_confirmation.1 (exampleAwsEnv (.ok "") none)
      (exampleContext ["us-east-1", "us-west-2"] "0s" true)).1 _ []
      (.AwsNukeAllResources ⟨[("eu-west-1", ⟨[⟨"ec2", ["i-0abc"]⟩]⟩)]⟩
        ["us-east-1", "us-west-2", "eu-west-1"]) (by decide) rfl).2.1,
    ((C5_deletion_only_after_confirmation.1 (exampleAwsEnv (.ok "nuke") none)
      (exampleContext [] "0s" false)).1 _ []
      (.AwsNukeAllResources
        ⟨[("us-east-1", ⟨[⟨"ec2", ["i-0abc"]⟩]⟩), ("us-west-2", ⟨[⟨"ec2", ["i-0abc"]⟩]⟩),
          ("eu-west-1", ⟨[⟨"ec2", ["i-0abc"]⟩]⟩)]⟩
        ["us-east-1", "us-west-2", "eu-west-1"]) (by decide) rfl).2.1,
    ((C5_deletion_only_after_confirmation.2 (exampleGcpEnv (.ok "nuke") [])
      (exampleContext [] "0s" false)).1 _ []
      (.GcpNukeAllResources [⟨"instance", "vm-1", "us-central1", "us-central1-a"⟩])
      (by decide) rfl).2.1,
    (C5_deletion_only_after_confirmation.1 (exampleAwsEnv (.ok "nuke") none)
      (exampleContext [] "0s" false)).2.1 (by decide),
    (C5_deletion_only_after_confirmation.1 (exampleAwsEnv (.ok "no") none)
      (exampleContext [] "0s" false)).2.2.1 (by decide) rfl,
    (C5_deletion_only_after_confirmation.1 (exampleAwsEnv (.error ⟨"EOF", false⟩) none)
      (exampleContext [] "0s" false)).2.2.2 _ (by decide) rfl,
    (C5_deletion_only_after_confirmation.2 (exampleGcpEnv (.ok "nuke") [])
      (exampleContext [] "0s" false)).2.1 (by decide),
    (C5_deletion_only_after_confirmation.2 (exampleGcpEnv (.ok "no") [])
      (exampleContext [] "0s" false)).2.2.1 (by decide) rfl,
    (C5_deletion_only_after_confirmation.2 (exampleGcpEnv (.error ⟨"EOF", false⟩) [])
      (exampleContext [] "0s" false)).2.2.2 _ (by decide) rfl⟩

/-! ## C6: an empty inventory ends the run before the gate -/

/-- For every accepted duration above the least int64, the cutoff is the clock
reading minus the duration, and an instant is before the cutoff exactly when it
lies more than the duration before the clock reading. -/
theorem parseDurationParam_cutoff (sys : Sys) (paramValue : String) (d : Duration)
    (h : sys.ParseDuration paramValue = .ok d) (hlo : MinInt64 < d) (hhi : d ≤ MaxInt64) :
    parseDurationParam sys paramValue = .ok (sys.Now - d)
    ∧ ∀ t : Time, t < sys.Now - d ↔ sys.Now - t > d := by
  have hw : wrapInt64 (-1 * d) = -d := by
    have h1 : -(2 : Int) ^ 63 < d := hlo
    have h2 : d ≤ (2 : Int) ^ 63 - 1 := hhi
    unfold wrapInt64
    rw [Int.emod_eq_of_lt (by linarith) (by linarith)]
    ring
  constructor
  · simp only [parseDurationParam, h, hw]
    rfl
  · intro t
    constructor <;> intro ht <;> linarith

/-- The scenarios of the age filter: at `10m` a resource created five minutes
before the clock reading is not before the cutoff, one created fifteen minutes
before it is; at the default `0s` the cutoff is the clock reading. -/
theorem parseDurationParam_scenarios (sys : Sys)
    (h10 : sys.ParseDuration "10m" = .ok (10 * Minute))
    (h0 : sys.ParseDuration "0s" = .ok 0) :
    parseDurationParam sys "10m" = .ok (sys.Now - 10 * Minute)
    ∧ ¬ (sys.Now - 5 * Minute < sys.Now - 10 * Minute)
    ∧ sys.Now - 15 * Minute < sys.Now - 10 * Minute
    ∧ parseDurationParam sys "0s" = .ok sys.Now := by
  have hm : Minute = 60000000000 := by decide
  have a := (parseDurationParam_cutoff sys "10m" (10 * Minute) h10
    (by rw [hm]; decide) (by rw [hm]; decide)).1
  have b := (parseDurationParam_cutoff sys "0s" 0 h0 (by decide) (by decide)).1
  refine ⟨a, ?_, ?_, ?_⟩
  · rw [hm]; linarith
  · rw [hm]; linarith
  · simpa using b

/-- C7 at the least duration: `time.ParseDuration` accepts
`-2562047h47m16.854775808s` as the least int64, its negation wraps to itself,
and the cutoff `parseDurationParam` returns lies 2^63 ns before the clock
reading instead of 2^63 ns after it: an instant equal to the clock reading is
less than the duration old and yet is not before the cutoff. -/
theorem C7_least_duration_wraps :
    (exampleSys (.ok "nuke")).ParseDuration "-2562047h47m16.854775808s" = .ok MinInt64
    ∧ wrapInt64 (-1 * MinInt64) = MinInt64
    ∧ parseDurationParam (exampleSys (.ok "nuke")) "-2562047h47m16.854775808s"
        = .ok (exampleNow + MinInt64)
    ∧ exampleNow + MinInt64 ≠ exampleNow - MinInt64
    ∧ exampleNow - exampleNow > MinInt64
    ∧ ¬ (exampleNow < exampleNow + MinInt64) :=
  ⟨rfl, by decide, rfl, by decide, by decide, by decide⟩

/-! ## C8: a malformed age filter stops the run before discovery -/

/-- C8: when `time.ParseDuration` rejects the older-than value,
`parseDurationParam` returns that error (with a stack trace) and no cutoff, and
`awsNuke` and `gcpNuke`, given a valid exclusion list, return an error with no
call of `GetAllResources`, no step of the confirmation gate and no call of
`NukeAllResources`. -/
theorem C8_malformed_duration_fails_fast :
    (∀ (sys : Sys) (paramValue : String) (e : ExtError),
      sys.ParseDuration paramValue = .error e →
        parseDurationParam sys paramValue = .error (WithStackTrace (.External e))
        ∧ (parseDurationParam sys paramValue).toOption = none)
    ∧ (∀ (env : AwsEnv) (c : Context) (e : ExtError),
      (∀ r ∈ c.StringSlice "exclude-region", r ∈ env.GetAllRegions) →
      env.sys.ParseDuration (c.String "older-than") = .error e →
        (awsNuke env c).err ≠ none
        ∧ (awsNuke env c).trace.countP Event.isList = 0
        ∧ (awsNuke env c).trace.countP Event.isGate = 0
        ∧ (awsNuke env c).trace.countP Event.isNuke = 0)
    ∧ (∀ (env : GcpEnv) (c : Context) (e : ExtError),
      (∀ ctx, env.DefaultContext = .ok ctx →
        ∀ r ∈ c.StringSlice "exclude-region", ctx.ContainsRegion r = true) →
      env.sys.ParseDuration (c.String "older-than") = .error e →
        (gcpNuke env c).err ≠ none
        ∧ (gcpNuke env c).trace.countP Event.isList = 0
        ∧ (gcpNuke env c).trace.countP Event.isGate = 0
        ∧ (gcpNuke env c).trace.countP Event.isNuke = 0) := by
  have hparse : ∀ (sys : Sys) (paramValue : String) (e : ExtError),
      sys.ParseDuration paramValue = .error e →
        parseDurationParam sys paramValue = .error (WithStackTrace (.External e)) := by
    intro sys paramValue e h
    simp [parseDurationParam, h]
  refine ⟨?_, ?_, ?_⟩
  · intro sys paramValue e h
    rw [hparse sys paramValue e h]
    exact ⟨rfl, rfl⟩
  · intro env c e hvalid h
    rw [awsNuke_parse_error env c _ (awsCheckExcludedRegions_none _ _ hvalid)
      (hparse _ _ e h)]
    simp [Event.isList, Event.isGate, Event.isNuke]
  · intro env c e hvalid h
    rcases hc : env.DefaultContext with x | ctx
    · rw [gcpNuke_context_error env c x hc]
      simp [Event.isList, Event.isGate, Event.isNuke]
    · rw [gcpNuke_parse_error env ctx c _ hc
        (gcpCheckExcludedRegions_none _ _ (hvalid ctx hc)) (hparse _ _ e h)]
      simp [Event.isList, Event.isGate, Event.isNuke]

/-- C8 at `--older-than yesterday`. -/
theorem C8_witness :
    (parseDurationParam (exampleSys (.ok "nuke")) "yesterday").toOption = none
    ∧ (awsNuke (exampleAwsEnv (.ok "nuke") none)
        (exampleContext ["us-east-1"] "yesterday" true)).trace.countP Event.isList = 0
    ∧ (gcpNuke (exampleGcpEnv (.ok "nuke") [])
        (exampleContext [] "yesterday" true)).trace.countP Event.isList = 0 :=
  ⟨(C8_malformed_duration_fails_fast.1 (exampleSys (.ok "nuke")) "yesterday"
      ⟨"time: invalid duration", false⟩ rfl).2,
    (C8_malformed_duration_fails_fast.2.1 (exampleAwsEnv (.ok "nuke") none)
      (exampleContext ["us-east-1"] "yesterday" true) ⟨"time: invalid duration", false⟩
      (by decide) rfl).2.1,
    (C8_malformed_duration_fails_fast.2.2 (exampleGcpEnv (.ok "nuke") [])
      (exampleContext [] "yesterday" true) ⟨"time: invalid duration", false⟩
      (by intro ctx _ r hr; simp [exampleContext] at hr) rfl).2.1⟩

/-! ## C9: one discovery, one deletion, the same inventory -/

/-- C9: in every run of `awsNuke` and of `gcpNuke`, `GetAllResources` is called
at most once and `NukeAllResources` at most once; a call of `GetAllResources`
receives the exclusion list of the invocation, which passed validation, and
the cutoff `parseDurationParam` returned; a call of `NukeAllResources` receives
the very inventory that call of `GetAllResources` returned. -/
theorem C9_inventory_built_once_consumed_once :
    (∀ (env : AwsEnv) (c : Context),
      (awsNuke env c).trace.countP Event.isList ≤ 1
      ∧ (awsNuke env c).trace.countP Event.isNuke ≤ 1
      ∧ (∀ e ∈ (awsNuke env c).trace, e.isList = true →
        ∃ cutoff, parseDurationParam env.sys (c.String "older-than") = .ok cutoff
          ∧ (∀ r ∈ c.StringSlice "exclude-region", r ∈ env.GetAllRegions)
          ∧ e = .AwsGetAllResources env.GetAllRegions (c.StringSlice "exclude-region") cutoff)
      ∧ (∀ e ∈ (awsNuke env c).trace, e.isNuke = true →
        ∃ cutoff account, parseDurationParam env.sys (c.String "older-than") = .ok cutoff
          ∧ env.GetAllResources env.GetAllRegions (c.StringSlice "exclude-region") cutoff
            = .ok account
          ∧ e = .AwsNukeAllResources account env.GetAllRegions))
    ∧ (∀ (env : GcpEnv) (c : Context),
      (gcpNuke env c).trace.countP Event.isList ≤ 1
      ∧ (gcpNuke env c).trace.countP Event.isNuke ≤ 1
      ∧ (∀ e ∈ (gcpNuke env c).trace, e.isList = true →
        ∃ ctx cutoff, env.DefaultContext = .ok ctx
          ∧ parseDurationParam env.sys (c.String "older-than") = .ok cutoff
          ∧ (∀ r ∈ c.StringSlice "exclude-region", ctx.ContainsRegion r = true)
          ∧ e = .GcpGetAllResources (c.StringSlice "exclude-region") cutoff)
      ∧ (∀ e ∈ (gcpNuke env c).trace, e.isNuke = true →
        ∃ ctx cutoff resources, env.DefaultContext = .ok ctx
          ∧ parseDurationParam env.sys (c.String "older-than") = .ok cutoff
          ∧ ctx.GetAllResources (c.StringSlice "exclude-region") cutoff = .ok resources
          ∧ e = .GcpNukeAllResources resources)) := by
  constructor
  · intro env c
    rcases awsNuke_cases env c with ⟨x, _, hr⟩ | ⟨x, _, _, hr⟩ | ⟨cutoff, x, hv, hp, _, hr⟩
      | ⟨cutoff, account, hv, hp, hl, _, hr⟩ | ⟨cutoff, account, x, hv, hp, hl, _, hg, hr⟩
      | ⟨cutoff, account, hv, hp, hl, _, hg, hr⟩ | ⟨cutoff, account, hv, hp, hl, _, hg, hr⟩
    · rw [hr]; simp [Event.isList, Event.isNuke]
    · rw [hr]; simp [Event.isList, Event.isNuke]
    · rw [hr]
      have hvalid := awsCheckExcludedRegions_valid _ _ hv
      simp [Event.isList, Event.isNuke, hp]
      exact hvalid
    · rw [hr]
      have hvalid := awsCheckExcludedRegions_valid _ _ hv
      simp [Event.isList, Event.isNuke, hp]
      exact hvalid
    · rw [hr]
      have hvalid := awsCheckExcludedRegions_valid _ _ hv
      refine ⟨?_, ?_, ?_, ?_⟩
      · simp [List.countP_append, countP_isList_awsPrefix, countP_isList_gate]
      · simp [List.countP_append, countP_isNuke_awsPrefix, countP_isNuke_gate]
      · intro e he hlist
        rcases List.mem_append.mp he with he | he
        · exact ⟨cutoff, hp, hvalid, (awsPrefix_events env c cutoff account e he).2.2 hlist⟩
        · rw [(gate_trace_no_call _ _ e he).1] at hlist; cases hlist
      · intro e he hnuke
        rcases List.mem_append.mp he with he | he
        · rw [(awsPrefix_events env c cutoff account e he).1] at hnuke; cases hnuke
        · rw [(gate_trace_no_call _ _ e he).2] at hnuke; cases hnuke
    · rw [hr]
      have hvalid := awsCheckExcludedRegions_valid _ _ hv
      refine ⟨?_, ?_, ?_, ?_⟩
      · simp [List.countP_append, countP_isList_awsPrefix, countP_isList_gate]
      · simp [List.countP_append, countP_isNuke_awsPrefix, countP_isNuke_gate]
      · intro e he hlist
        rcases List.mem_append.mp he with he | he
        · exact ⟨cutoff, hp, hvalid, (awsPrefix_events env c cutoff account e he).2.2 hlist⟩
        · rw [(gate_trace_no_call _ _ e he).1] at hlist; cases hlist
      · intro e he hnuke
        rcases List.mem_append.mp he with he | he
        · rw [(awsPrefix_events env c cutoff account e he).1] at hnuke; cases hnuke
        · rw [(gate_trace_no_call _ _ e he).2] at hnuke; cases hnuke
    · rw [hr]
      have hvalid := awsCheckExcludedRegions_valid _ _ hv
      refine ⟨?_, ?_, ?_, ?_⟩
      · simp [List.countP_append, countP_isList_awsPrefix, countP_isList_gate, Event.isList]
      · simp [List.countP_append, countP_isNuke_awsPrefix, countP_isNuke_gate, Event.isNuke]
      · intro e he hlist
        rcases List.mem_append.mp he with he | he
        · rcases List.mem_append.mp he with he | he
          · exact ⟨cutoff, hp, hvalid, (awsPrefix_events env c cutoff account e he).2.2 hlist⟩
          · rw [(gate_trace_no_call _ _ e he).1] at hlist; cases hlist
        · rw [List.mem_singleton.mp he] at hlist; cases hlist
      · intro e he hnuke
        rcases List.mem_append.mp he with he | he
        · rcases List.mem_append.mp he with he | he
          · rw [(awsPrefix_events env c cutoff account e he).1] at hnuke; cases hnuke
          · rw [(gate_trace_no_call _ _ e he).2] at hnuke; cases hnuke
        · exact ⟨cutoff, account, hp, hl, List.mem_singleton.mp he⟩
  · intro env c
    rcases hc : env.DefaultContext with x | ctx
    · rw [gcpNuke_context_error env c x hc]; simp [Event.isList, Event.isNuke]
    rcases gcpNuke_cases env ctx c hc with ⟨x, _, hr⟩ | ⟨x, _, _, hr⟩
      | ⟨cutoff, x, hv, hp, _, hr⟩
      | ⟨cutoff, resources, hv, hp, hl, _, hr⟩ | ⟨cutoff, resources, x, hv, hp, hl, _, hg, hr⟩
      | ⟨cutoff, resources, hv, hp, hl, _, hg, hr⟩
      | ⟨cutoff, resources, hv, hp, hl, _, hg, _, hr⟩
      | ⟨cutoff, resources, hv, hp, hl, _, hg, _, hr⟩
    · rw [hr]; simp [Event.isList, Event.isNuke]
    · rw [hr]; simp [Event.isList, Event.isNuke]
    · rw [hr]
      have hvalid := gcpCheckExcludedRegions_valid _ _ hv
      simp [Event.isList, Event.isNuke, hp]
      exact hvalid
    · rw [hr]
      have hvalid := gcpCheckExcludedRegions_valid _ _ hv
      simp [Event.isList, Event.isNuke, hp]
      exact hvalid
    · rw [hr]
      have hvalid := gcpCheckExcludedRegions_valid _ _ hv
      refine ⟨?_, ?_, ?_, ?_⟩
      · simp [List.countP_append, countP_isList_gcpPrefix, countP_isList_gate]
      · simp [List.countP_append, countP_isNuke_gcpPrefix, countP_isNuke_gate]
      · intro e he hlist
        rcases List.mem_append.mp he with he | he
        · exact ⟨ctx, cutoff, rfl, hp, hvalid,
            (gcpPrefix_events ctx c cutoff resources e he).2.2 hlist⟩
        · rw [(gate_trace_no_call _ _ e he).1] at hlist; cases hlist
      · intro e he hnuke
        rcases List.mem_append.mp he with he | he
        · rw [(gcpPrefix_events ctx c cutoff resources e he).1] at hnuke; cases hnuke
        · rw [(gate_trace_no_call _ _ e he).2] at hnuke; cases hnuke
    · rw [hr]
      have hvalid := gcpCheckExcludedRegions_valid _ _ hv
      refine ⟨?_, ?_, ?_, ?_⟩
      · simp [List.countP_append, countP_isList_gcpPrefix, countP_isList_gate]
      · simp [List.countP_append, countP_isNuke_gcpPrefix, countP_isNuke_gate]
      · intro e he hlist
        rcases List.mem_append.mp he with he | he
        · exact ⟨ctx, cutoff, rfl, hp, hvalid,
            (gcpPrefix_events ctx c cutoff resources e he).2.2 hlist⟩
        · rw [(gate_trace_no_call _ _ e he).1] at hlist; cases hlist
      · intro e he hnuke
        rcases List.mem_append.mp he with he | he
        · rw [(gcpPrefix_events ctx c cutoff resources e he).1] at hnuke; cases hnuke
        · rw [(gate_trace_no_call _ _ e he).2] at hnuke; cases hnuke
    · rw [hr]
      have hvalid := gcpCheckExcludedRegions_valid _ _ hv
      refine ⟨?_, ?_, ?_, ?_⟩
      · simp only [List.countP_append, countP_isList_gcpPrefix, countP_isList_gate,
          countP_isList_errorLines]
        simp [Event.isList]
      · simp only [List.countP_append, countP_isNuke_gcpPrefix, countP_isNuke_gate,
          countP_isNuke_errorLines]
        simp [Event.isNuke]
      · intro e he hlist
        rcases List.mem_append.mp he with he | he
        · rcases List.mem_append.mp he with he | he
          · rcases List.mem_append.mp he with he | he
            · exact ⟨ctx, cutoff, rfl, hp, hvalid,
                (gcpPrefix_events ctx c cutoff resources e he).2.2 hlist⟩
            · rw [(gate_trace_no_call _ _ e he).1] at hlist; cases hlist
          · rw [List.mem_singleton.mp he] at hlist; cases hlist
        · rw [(isLog_not_call e (errorLines_isLog _ e he)).1] at hlist; cases hlist
      · intro e he hnuke
        rcases List.mem_append.mp he with he | he
        · rcases List.mem_append.mp he with he | he
          · rcases List.mem_append.mp he with he | he
            · rw [(gcpPrefix_events ctx c cutoff resources e he).1] at hnuke; cases hnuke
            · rw [(gate_trace_no_call _ _ e he).2] at hnuke; cases hnuke
          · exact ⟨ctx, cutoff, resources, rfl, hp, hl, List.mem_singleton.mp he⟩
        · rw [(isLog_not_call e (errorLines_isLog _ e he)).2.1] at hnuke; cases hnuke
    · rw [hr]
      have hvalid := gcpCheckExcludedRegions_valid _ _ hv
      refine ⟨?_, ?_, ?_, ?_⟩
      · simp [List.countP_append, countP_isList_gcpPrefix, countP_isList_gate, Event.isList]
      · simp [List.countP_append, countP_isNuke_gcpPrefix, countP_isNuke_gate, Event.isNuke]
      · intro e he hlist
        rcases List.mem_append.mp he with he | he
        · rcases List.mem_append.mp he with he | he
          · exact ⟨ctx, cutoff, rfl, hp, hvalid,
              (gcpPrefix_events ctx c cutoff resources e he).2.2 hlist⟩
          · rw [(gate_trace_no_call _ _ e he).1] at hlist; cases hlist
        · rw [List.mem_singleton.mp he] at hlist; cases hlist
      · intro e he hnuke
        rcases List.mem_append.mp he with he | he
        · rcases List.mem_append.mp he with he | he
          · rw [(gcpPrefix_events ctx c cutoff resources e he).1] at hnuke; cases hnuke
          · rw [(gate_trace_no_call _ _ e he).2] at hnuke; cases hnuke
        · exact ⟨ctx, cutoff, resources, rfl, hp, hl, List.mem_singleton.mp he⟩

/-- C9 at a confirmed AWS run and a confirmed GCP run: the call of
`GetAllResources` receives the exclusion list and the cutoff, and the inventory
handed to `NukeAllResources` is the one `GetAllResources` returned. -/
theorem C9_witness :
    (∃ cutoff, parseDurationParam (exampleSys (.ok "nuke")) "10m" = .ok cutoff
      ∧ (∀ r ∈ ["us-east-1", "us-west-2"], r ∈ ["us-east-1", "us-west-2", "eu-west-1"])
      ∧ Event.AwsGetAllResources ["us-east-1", "us-west-2", "eu-west-1"]
          ["us-east-1", "us-west-2"] (exampleNow - 10 * Minute)
        = .AwsGetAllResources ["us-east-1", "us-west-2", "eu-west-1"]
          ["us-east-1", "us-west-2"] cutoff)
    ∧ (∃ cutoff account, parseDurationParam (exampleSys (.ok "nuke")) "10m" = .ok cutoff
      ∧ (exampleAwsEnv (.ok "nuke") none).GetAllResources
          ["us-east-1", "us-west-2", "eu-west-1"] ["us-east-1", "us-west-2"] cutoff = .ok account
      ∧ Event.AwsNukeAllResources ⟨[("eu-west-1", ⟨[⟨"ec2", ["i-0abc"]⟩]⟩)]⟩
          ["us-east-1", "us-west-2", "eu-west-1"]
        = .AwsNukeAllResources account ["us-east-1", "us-west-2", "eu-west-1"])
    ∧ (∃ ctx cutoff resources, (exampleGcpEnv (.ok "nuke") []).DefaultContext = .ok ctx
      ∧ parseDurationParam (exampleSys (.ok "nuke")) "10m" = .ok cutoff
      ∧ ctx.GetAllResources ["europe-west1"] cutoff = .ok resources
      ∧ Event.GcpNukeAllResources [⟨"instance", "vm-1", "us-central1", "us-central1-a"⟩]
        = .GcpNukeAllResources resources) :=
  ⟨(C9_inventory_built_once_consumed_once.1 (exampleAwsEnv (.ok "nuke") none)
      (exampleContext ["us-east-1", "us-west-2"] "10m" false)).2.2.1
      (.AwsGetAllResources ["us-east-1", "us-west-2", "eu-west-1"]
        ["us-east-1", "us-west-2"] (exampleNow - 10 * Minute)) (by decide) rfl,
    (C9_inventory_built_once_consumed_once.1 (exampleAwsEnv (.ok "nuke") none)
      (exampleContext ["us-east-1", "us-west-2"] "10m" false)).2.2.2
      (.AwsNukeAllResources ⟨[("eu-west-1", ⟨[⟨"ec2", ["i-0abc"]⟩]⟩)]⟩
        ["us-east-1", "us-west-2", "eu-west-1"]) (by decide) rfl,
    (C9_inventory_built_once_consumed_once.2 (exampleGcpEnv (.ok "nuke") [])
      (exampleContext ["europe-west1"] "10m" false)).2.2.2
      (.GcpNukeAllResources [⟨"instance", "vm-1", "us-central1", "us-central1-a"⟩])
      (by decide) rfl⟩

/-! ## C10: the flag name carried by the error -/

/-- C10 at `--exclude-region mars-1`: `awsNuke` returns an `InvalidFlagError`
named `exclude-regions`, `gcpNuke` one named `exclude-region`; the `aws` command
declares the flag `exclude-region` and no flag `exclude-regions`. -/
theorem C10_aws_error_names_undeclared_flag :
    (awsNuke (exampleAwsEnv (.ok "nuke") none) (exampleContext ["mars-1"] "0s" false)).err
      = some (.InvalidFlagError "exclude-regions" "mars-1")
    ∧ (gcpNuke (exampleGcpEnv (.ok "nuke") []) (exampleContext ["mars-1"] "0s" false)).err
      = some (.InvalidFlagError "exclude-region" "mars-1")
    ∧ "exclude-region" ∈ declaredFlagNames (CreateCli "v0.1.0") "aws"
    ∧ "exclude-regions" ∉ declaredFlagNames (CreateCli "v0.1.0") "aws"
    ∧ "exclude-region" ∈ declaredFlagNames (CreateCli "v0.1.0") "gcp" :=
  ⟨by decide, by decide, by decide, by decide, by decide⟩

end CloudNuke
